import Mathlib

/-!
Verification of the opscure_ml remediation core against its specification.

This file shallowly embeds the Python modules under src/ into Lean:
  - src/remediation/safety.py    (SafetyPolicy: command and matrix evaluation)
  - src/remediation/config.py    (SafetyConfiguration)
  - src/remediation/confidence.py (FeedbackStore, ConfidenceScorer)
  - src/remediation/types.py     (RemediationAction/Plan/Proposal)
  - src/ai/error_correlator.py   (ErrorCorrelator: clustering and ranking)
  - src/remediation/patcher.py   (CodePatcher.apply_patch)
  - src/remediation/xml_patcher.py (XmlPatcher)
  - src/ai/agent.py              (RemediationAgent.run, _execute_actions)

Python strings are modelled as Lean strings, machine floats (confidence
scores) as rationals, raised exceptions as Except.error, and file I/O as
explicit state passing over an association-list file system.  Calls to
external effectful routines made by the executor are additionally recorded
in an explicit call trace so that theorems can speak about which external
operations were or were not invoked.
-/

namespace OpscureML

/-! ## Python string primitives

Models of the Python methods str.strip, str.split (no separator), str.join,
substring membership, str.count and str.replace, all over List Char. -/

/-- str.split() helper: folds one character onto an accumulated list of
words, a whitespace character opening a fresh (possibly empty) word. -/
def splitAux (c : Char) (acc : List (List Char)) : List (List Char) :=
  if c.isWhitespace then [] :: acc
  else
    match acc with
    | [] => [[c]]
    | w :: ws => (c :: w) :: ws

/-- Model of Python str.split() with no separator: splits on runs of
whitespace and never returns empty words. -/
def pySplitWs (l : List Char) : List (List Char) :=
  (l.foldr splitAux [[]]).filter (fun w => !w.isEmpty)


/-- Model of Python str.strip(): drops whitespace from both ends. -/
def pyStrip (l : List Char) : List Char :=
  ((l.dropWhile Char.isWhitespace).reverse.dropWhile Char.isWhitespace).reverse

def pyStripS (s : String) : String := String.mk (pyStrip s.data)

def pySplitWsS (s : String) : List String := (pySplitWs s.data).map String.mk

/-- Model of Python str.split(sep, 1) for a single-character separator:
returns the part before the first separator and the rest (empty if the
separator does not occur, matching the agent's use of parts[1] if len>1
else ""). -/
def splitOnce (s : String) (sep : Char) : String × String :=
  match s.data.findIdx? (· = sep) with
  | none => (s, "")
  | some i => (String.mk (s.data.take i), String.mk (s.data.drop (i + 1)))

/-- Model of the Python substring test (needle in hay). -/
def subOccurs (needle : List Char) : List Char → Bool
  | [] => needle.isPrefixOf []
  | c :: t => needle.isPrefixOf (c :: t) || subOccurs needle t

def substrB (needle hay : String) : Bool := subOccurs needle.data hay.data

/-- Model of Python str.count(needle) for a nonempty needle: counts
non-overlapping occurrences scanning left to right.  Each step consumes at
least one character, so fuel equal to the input length never runs out;
fuel keeps the recursion structural. -/
def countOccF (needle : List Char) : Nat → List Char → Nat
  | 0, _ => 0
  | _ + 1, [] => 0
  | fuel + 1, c :: t =>
    if needle.isPrefixOf (c :: t) then
      1 + countOccF needle fuel ((c :: t).drop (max 1 needle.length))
    else
      countOccF needle fuel t

/-- Model of Python content.count(needle): the empty needle counts
len(content)+1 times. -/
def strCount (content needle : String) : Nat :=
  if needle = "" then content.data.length + 1
  else countOccF needle.data content.data.length content.data

/-- Model of Python str.replace for a nonempty needle: replaces all
non-overlapping occurrences left to right, with the same fuel scheme as
countOccF. -/
def replaceOccF (needle repl : List Char) : Nat → List Char → List Char
  | 0, l => l
  | _ + 1, [] => []
  | fuel + 1, c :: t =>
    if needle.isPrefixOf (c :: t) then
      repl ++ replaceOccF needle repl fuel ((c :: t).drop (max 1 needle.length))
    else
      c :: replaceOccF needle repl fuel t

/-- Model of Python content.replace(needle, repl); the empty needle
inserts repl between every character and at both ends, as in Python. -/
def strReplace (content needle repl : String) : String :=
  if needle = "" then
    String.mk ((content.data.map (fun c => repl.data ++ [c])).flatten ++ repl.data)
  else
    String.mk (replaceOccF needle.data repl.data content.data.length content.data)

/-- Model of " ".join(s.split()), used by the code patcher for its
whitespace-collapsed comparison. -/
def wsCollapse (s : String) : String :=
  String.mk (List.intercalate [' '] (pySplitWs s.data))

/-- Python (c in s) for a single character. -/
def strContainsChar (s : String) (c : Char) : Bool := s.data.contains c

/-- Python s.startswith(pre). -/
def strStartsWith (s pre : String) : Bool := pre.data.isPrefixOf s.data

/-- Python s.endswith(suf). -/
def strEndsWith (s suf : String) : Bool := suf.data.isSuffixOf s.data

/-- Python s.lower() for the ASCII strings this code handles. -/
def strToLower (s : String) : String := String.mk (s.data.map Char.toLower)

/-! ## A small regular-expression model

The safety module applies re.search with a fixed list of system blocklist
patterns plus user-configured blocklist patterns.  The constructs those
patterns use are: literal characters, an end anchor, the whitespace class
with a star, and top-level alternation.  We model a pattern as an
alternation of sequences of atoms with Python re.search semantics
(existence of a match starting at any position). -/

inductive RxAtom where
  | lit (c : Char)
  | wsStar
  | endAnchor
deriving DecidableEq, Repr

abbrev RxSeq := List RxAtom

/-- A regex pattern: a top-level alternation of atom sequences. -/
structure Rx where
  alts : List RxSeq
deriving DecidableEq, Repr

/-- The suffixes reachable from s by consuming zero or more leading
whitespace characters: the possible continuation points of a whitespace
star. -/
def wsSuffixes : List Char → List (List Char)
  | [] => [[]]
  | c :: t => (c :: t) :: (if c.isWhitespace then wsSuffixes t else [])

/-- Does the atom sequence match some prefix of s?  The end anchor follows
Python semantics: it matches at the end of the input or just before a
trailing newline.  The whitespace star tries every reachable continuation
point, which is match existence exactly. -/
def seqMatch : RxSeq → List Char → Bool
  | [], _ => true
  | RxAtom.endAnchor :: rest, s => decide (s = [] ∨ s = ['\n']) && seqMatch rest s
  | RxAtom.lit _ :: _, [] => false
  | RxAtom.lit c :: rest, d :: s => c = d && seqMatch rest s
  | RxAtom.wsStar :: rest, s => (wsSuffixes s).any (fun s' => seqMatch rest s')

/-- Try every start position, as re.search does. -/
def searchFrom (alts : List RxSeq) : List Char → Bool
  | [] => alts.any (fun q => seqMatch q [])
  | c :: t => alts.any (fun q => seqMatch q (c :: t)) || searchFrom alts t

/-- Model of re.search(pattern, s) is not None. -/
def reSearch (r : Rx) (s : String) : Bool := searchFrom r.alts s.data

def rxLits (s : String) : RxSeq := s.data.map RxAtom.lit

/-- Decidable equality for Except values, so that evaluation outcomes
(including modelled exceptions) can be compared by decide. -/
def exceptDecEq {ε α : Type} [DecidableEq ε] [DecidableEq α] :
    (a b : Except ε α) → Decidable (a = b)
  | .error e, .error f =>
    if h : e = f then isTrue (by rw [h]) else isFalse (by simp [h])
  | .error _, .ok _ => isFalse (by simp)
  | .ok _, .error _ => isFalse (by simp)
  | .ok a, .ok b =>
    if h : a = b then isTrue (by rw [h]) else isFalse (by simp [h])

instance {ε α : Type} [DecidableEq ε] [DecidableEq α] : DecidableEq (Except ε α) :=
  exceptDecEq

/-! ## src/remediation/context.py -/

inductive Environment where
  | DEV
  | PROD
  | UNKNOWN
deriving DecidableEq, Repr

def Environment.value : Environment → String
  | .DEV => "DEV"
  | .PROD => "PROD"
  | .UNKNOWN => "UNKNOWN"

inductive Scope where
  | SOURCE_CODE
  | INFRA
  | CONFIG
  | UNKNOWN
deriving DecidableEq, Repr

def Scope.value : Scope → String
  | .SOURCE_CODE => "SOURCE_CODE"
  | .INFRA => "INFRA"
  | .CONFIG => "CONFIG"
  | .UNKNOWN => "UNKNOWN"

inductive ExecutionMode where
  | AUTO_PR
  | DIRECT_APPLY
deriving DecidableEq, Repr

inductive SafetyLevel where
  | SAFE
  | REQUIRE_APPROVAL
  | BLOCKED
deriving DecidableEq, Repr

/-- Model of the Python enum constructor SafetyLevel(level_str): a string
that is not one of the three member values makes the constructor raise
ValueError, modelled as none. -/
def SafetyLevel.ofString : String → Option SafetyLevel
  | "SAFE" => some .SAFE
  | "REQUIRE_APPROVAL" => some .REQUIRE_APPROVAL
  | "BLOCKED" => some .BLOCKED
  | _ => none

structure SafetyContext where
  environment : Environment
  scope : Scope
  execution_mode : ExecutionMode
deriving DecidableEq, Repr

/-! ## src/remediation/config.py -/

/-- One entry of SafetyConfiguration.matrix_overrides: a JSON dict whose
keys may be absent, so each field is an Option (dict.get returns None for a
missing key). -/
structure MatrixRule where
  environment : Option String := none
  scope : Option String := none
  level : Option String := none
deriving DecidableEq, Repr

/-- Model of SafetyConfiguration.  custom_allowed_commands is a Python set
used only through membership, modelled as a list; custom_blocked_patterns
holds user regexes, modelled in parsed form. -/
structure SafetyConfiguration where
  custom_allowed_commands : List String := []
  custom_blocked_patterns : List Rx := []
  matrix_overrides : List MatrixRule := []
deriving Repr

/-! ## src/remediation/safety.py -/

namespace SafetyPolicy

/-- SafetyPolicy.SAFE_COMMANDS (a set used only through membership of a
single-word base command). -/
def SAFE_COMMANDS : List String :=
  ["ls", "grep", "cat", "echo", "pwd",
   "kubectl get", "kubectl describe", "kubectl logs",
   "git status", "git log", "git diff"]

/-- SafetyPolicy.APPROVAL_REQUIRED_COMMANDS. -/
def APPROVAL_REQUIRED_COMMANDS : List String :=
  ["kubectl delete", "kubectl scale", "kubectl patch", "kubectl apply",
   "rm", "mv", "cp", "touch", "mkdir",
   "git commit", "git push", "git merge",
   "systemctl restart", "docker stop", "docker restart"]

/-- SafetyPolicy.BLOCKED_PATTERNS, each Python regex rendered into the Rx
model following Python re semantics:
  "rm -rf /$"     : literal text with an end anchor;
  "rm -rf /\\*"   : the escaped star is a literal star;
  ">\\s*/etc/"    : literal, whitespace-class star, literal;
  "chmod 777", "mkfs", "dd " : literal text;
  the fork-bomb pattern is a top-level alternation (the bar has lowest
  precedence) whose left branch is colon, an empty group (the unescaped
  parentheses form a group matching the empty string), then brace, space,
  colon (the brace is literal because it opens no valid quantifier) and
  whose right branch is the literal text colon-ampersand-space-brace-
  semicolon-colon; so its branches match the literal texts ":\x7b :" and
  " :& \x7d;:". -/
def BLOCKED_PATTERNS : List Rx :=
  [⟨[rxLits "rm -rf /" ++ [RxAtom.endAnchor]]⟩,
   ⟨[rxLits "rm -rf /*"]⟩,
   ⟨[[RxAtom.lit '>', RxAtom.wsStar] ++ rxLits "/etc/"]⟩,
   ⟨[rxLits "chmod 777"]⟩,
   ⟨[rxLits "mkfs"]⟩,
   ⟨[rxLits "dd "]⟩,
   ⟨[rxLits ":\x7b :", rxLits " :& \x7d;:"]⟩]

/-- The override scan at the top of evaluate_matrix: the first rule whose
"environment" and "scope" entries both equal the context's enum values. -/
def matrixFind (cfg : SafetyConfiguration) (context : SafetyContext) : Option MatrixRule :=
  cfg.matrix_overrides.find? (fun rule =>
    rule.environment == some context.environment.value &&
    rule.scope == some context.scope.value)

/-- SafetyPolicy.evaluate_matrix.  A matching override is enforced by
SafetyLevel(level_str), which raises ValueError (Except.error) on a level
string that is not a member value.  The rule chain below flattens the
source's nested ifs; since ExecutionMode has exactly the two members
tested, the flattening is exact. -/
def evaluate_matrix (cfg : SafetyConfiguration) (context : SafetyContext) :
    Except String SafetyLevel :=
  match matrixFind cfg context with
  | some rule =>
    let level_str := rule.level.getD "REQUIRE_APPROVAL"
    match SafetyLevel.ofString level_str with
    | some lvl => .ok lvl
    | none => .error ("ValueError: '" ++ level_str ++ "' is not a valid SafetyLevel")
  | none =>
    if context.scope = .SOURCE_CODE ∧ context.execution_mode = .DIRECT_APPLY then
      .ok .BLOCKED
    else if context.scope = .SOURCE_CODE ∧ context.execution_mode = .AUTO_PR then
      .ok .REQUIRE_APPROVAL
    else if context.scope = .INFRA ∧ context.environment = .PROD ∧
            context.execution_mode = .DIRECT_APPLY then
      .ok .REQUIRE_APPROVAL
    else if context.scope = .INFRA ∧ context.environment = .DEV ∧
            context.execution_mode = .DIRECT_APPLY then
      .ok .SAFE
    else if context.scope = .CONFIG then
      .ok .REQUIRE_APPROVAL
    else
      .ok .REQUIRE_APPROVAL

/-- Steps 3 and 4 of evaluate_command: the whitelist and approval-list
lookups on the stripped command, reached only when neither blocklist
matched and any attached matrix gate returned SAFE.  This is where the
source computes command_str.split()[0], raising IndexError on a
whitespace-only command (the source checks the approval list twice, once
through simple_base and once through base_cmd, which hold the same
value). -/
def commandLookup (cfg : SafetyConfiguration) (cmd : String) :
    Except String SafetyLevel :=
  match pySplitWsS cmd with
  | [] => .error "IndexError: list index out of range"
  | base_cmd :: _ =>
    if base_cmd ∈ cfg.custom_allowed_commands then .ok .SAFE
    else if base_cmd ∈ SAFE_COMMANDS then
      if strContainsChar cmd '>' || strContainsChar cmd '|' then .ok .REQUIRE_APPROVAL
      else .ok .SAFE
    else if base_cmd ∈ APPROVAL_REQUIRED_COMMANDS then .ok .REQUIRE_APPROVAL
    else if base_cmd ∈ APPROVAL_REQUIRED_COMMANDS then .ok .REQUIRE_APPROVAL
    else .ok .REQUIRE_APPROVAL

/-- SafetyPolicy.evaluate_command.  The source strips the command, checks
the user blocklist, the system blocklist, then (only when a context is
attached) the matrix, and only after that performs the commandLookup
steps. -/
def evaluate_command (cfg : SafetyConfiguration) (command_str : String)
    (context : Option SafetyContext) : Except String SafetyLevel :=
  let cmd := pyStripS command_str
  if cfg.custom_blocked_patterns.any (fun p => reSearch p cmd) then .ok .BLOCKED
  else if BLOCKED_PATTERNS.any (fun p => reSearch p cmd) then .ok .BLOCKED
  else
    match context with
    | some ctx =>
      match evaluate_matrix cfg ctx with
      | .error e => .error e
      | .ok .BLOCKED => .ok .BLOCKED
      | .ok .REQUIRE_APPROVAL => .ok .REQUIRE_APPROVAL
      | .ok .SAFE => commandLookup cfg cmd
    | none => commandLookup cfg cmd

end SafetyPolicy

/-! ## Association lists with Python dict semantics

Python dict assignment keeps the position of an existing key and appends a
new key at the end; lookup returns None for a missing key. -/

def lookupA {α : Type} (l : List (String × α)) (k : String) : Option α :=
  (l.find? (fun e => e.1 = k)).map Prod.snd

def updateA {α : Type} (l : List (String × α)) (k : String) (v : α) :
    List (String × α) :=
  if (l.find? (fun e => e.1 = k)).isSome then
    l.map (fun e => if e.1 = k then (k, v) else e)
  else
    l ++ [(k, v)]

/-! ## src/common/types.py and src/remediation/types.py -/

structure GitConfig where
  user_name : String
  user_email : String
  local_config_content : Option String := none
  global_config_content : Option String := none
deriving DecidableEq, Repr

inductive ActionType where
  | COMMAND
  | PATCH
  | API_CALL
  | FILE_EDIT
  | XML_EDIT
  | RUNTIME_OP
deriving DecidableEq, Repr

structure RemediationAction where
  type : ActionType
  command : String
  arguments : Option (List String) := none
  context : Option String := none
  file_path : Option String := none
  original_context : Option String := none
  replacement_text : Option String := none
  xml_selector : Option String := none
  xml_value : Option String := none
deriving DecidableEq, Repr

/-- Python truthiness of an Optional[str]: None and the empty string are
falsy. -/
def optStrFalsy : Option String → Bool
  | none => true
  | some s => s = ""

/-- Python truthiness of an Optional[List[str]]: None and the empty list
are falsy. -/
def optListFalsy : Option (List String) → Bool
  | none => true
  | some l => l.isEmpty

/-- Rendering of an Optional[str] inside a Python f-string: None prints as
"None". -/
def showOpt : Option String → String
  | none => "None"
  | some s => s

/-- RemediationAction.to_string. -/
def RemediationAction.to_string (a : RemediationAction) : String :=
  match a.type with
  | .COMMAND =>
    let args := if optListFalsy a.arguments then ""
                else " ".intercalate (a.arguments.getD [])
    a.command ++ " " ++ args
  | .FILE_EDIT => "EDIT_FILE " ++ showOpt a.file_path ++ ": " ++ a.command
  | _ => a.command

structure RemediationPlan where
  title : String
  reasoning : String
  validation_strategy : String
  risk_assessment : String
deriving DecidableEq, Repr

structure RemediationProposal where
  plan : RemediationPlan
  actions : List RemediationAction
  confidence_score : ℚ
  git_config : Option GitConfig := none
deriving DecidableEq, Repr

/-! ## src/remediation/confidence.py -/

structure ConfidenceResult where
  final_score : ℚ
  decision : SafetyLevel
  reason : String
deriving DecidableEq, Repr

/-- One value of the FeedbackStore cache: {"success": int, "total": int}. -/
structure FeedbackEntry where
  success : Nat
  total : Nat
deriving DecidableEq, Repr

/-- The FeedbackStore in-memory cache; the JSON file persistence is the
identity on this state (load failures degrade to the empty cache before
any run starts). -/
abbrev FeedbackCache := List (String × FeedbackEntry)

namespace FeedbackStore

/-- FeedbackStore.record_feedback. -/
def record_feedback (cache : FeedbackCache) (action_signature : String)
    (success : Bool) : FeedbackCache :=
  let entry := (lookupA cache action_signature).getD ⟨0, 0⟩
  let entry := { entry with total := entry.total + 1 }
  let entry := if success then { entry with success := entry.success + 1 } else entry
  updateA cache action_signature entry

/-- FeedbackStore.get_success_rate: None when the signature is absent or
has fewer than 3 recorded attempts. -/
def get_success_rate (cache : FeedbackCache) (action_signature : String) :
    Option ℚ :=
  match lookupA cache action_signature with
  | none => none
  | some entry =>
    if entry.total < 3 then none
    else some ((entry.success : ℚ) / (entry.total : ℚ))

end FeedbackStore

/-- Two-decimal rendering of a score, standing in for Python's "%.2f"
format in reason strings (rounding half-up rather than half-even; no claim
depends on the reason text). -/
def fmt2 (q : ℚ) : String :=
  let cents : Int := ⌊q * 100 + 1 / 2⌋
  let ip := cents / 100
  let fp := (cents % 100).toNat
  toString ip ++ "." ++ (if fp < 10 then "0" ++ toString fp else toString fp)

/-- Rendering of the float threshold in the low-confidence message
(Python prints 0.7 / 0.8). -/
def fmtThr (q : ℚ) : String := if q = 7 / 10 then "0.7" else "0.8"

namespace ConfidenceScorer

def HIGH_CONFIDENCE_THRESHOLD : ℚ := 0.99

def LOW_CONFIDENCE_THRESHOLD : ℚ := 0.80

/-- The runtime-op threshold choice inside ConfidenceScorer.evaluate. -/
def current_threshold (proposal : RemediationProposal) : ℚ :=
  if proposal.actions.any (fun a => a.type == ActionType.RUNTIME_OP) then 0.70
  else LOW_CONFIDENCE_THRESHOLD

/-- ConfidenceScorer.evaluate. -/
def evaluate (cache : FeedbackCache) (proposal : RemediationProposal)
    (raw_ai_confidence : ℚ) : ConfidenceResult :=
  let signature := proposal.plan.title
  let history_score := FeedbackStore.get_success_rate cache signature
  let final_score :=
    match history_score with
    | some h => raw_ai_confidence * 0.4 + h * 0.6
    | none => raw_ai_confidence
  -- the source assigns a Combined/AI reason string here but every branch
  -- below overwrites it, so the assignment is dead; kept as dead code
  let _reason :=
    match history_score with
    | some h => "Combined AI (" ++ fmt2 raw_ai_confidence ++ ") + History (" ++ fmt2 h ++ ")"
    | none => "AI Confidence (" ++ fmt2 raw_ai_confidence ++ ")"
  let thr := current_threshold proposal
  if final_score < thr then
    ⟨final_score, .REQUIRE_APPROVAL, "Low confidence (< " ++ fmtThr thr ++ "). Forcing HITL."⟩
  else if final_score ≥ HIGH_CONFIDENCE_THRESHOLD then
    match history_score with
    | none =>
      ⟨final_score, .REQUIRE_APPROVAL,
       "High AI confidence but no historical verification. Requesting first-time approval."⟩
    | some _ => ⟨final_score, .SAFE, "High confidence + Verified history."⟩
  else
    ⟨final_score, .REQUIRE_APPROVAL,
     "Confidence in medium range (0.8-0.9). Requesting approval."⟩

end ConfidenceScorer

/-! ## src/ai/error_correlator.py

Timestamps.  The source parses ISO strings with datetime.fromisoformat
after normalising a trailing Z to +00:00, truncating fractional seconds to
six digits, and deleting the +00:00 suffix; parse failure yields None.  We
model a parsed naive datetime as its rational number of seconds from
0001-01-01T00:00:00 (datetime.min), computed with proleptic Gregorian day
counting, so datetime.min is 0 and every parsed value is nonnegative.
Timestamps carrying a non-UTC offset would produce aware datetimes in the
source (whose comparison against naive datetime.min raises and is outside
this model); here they simply fail to parse. -/

structure IsoFields where
  year : Nat
  month : Nat
  day : Nat
  hour : Nat
  minute : Nat
  second : Nat
  micro : Nat
deriving DecidableEq, Repr

def takeDigitsAux : Nat → Nat → List Char → Option (Nat × List Char)
  | 0, acc, l => some (acc, l)
  | _ + 1, _, [] => none
  | n + 1, acc, c :: t =>
    if c.isDigit then takeDigitsAux n (acc * 10 + (c.toNat - '0'.toNat)) t else none

/-- Reads exactly n digits as a number, returning the rest of the input. -/
def takeDigits (n : Nat) (l : List Char) : Option (Nat × List Char) :=
  takeDigitsAux n 0 l

def expectChar (c : Char) : List Char → Option (List Char)
  | [] => none
  | d :: t => if d = c then some t else none

def digitsToNat (l : List Char) : Nat :=
  l.foldl (fun acc c => acc * 10 + (c.toNat - '0'.toNat)) 0

/-- Fractional seconds: the source truncates to at most six digits and
right-pads with zeros before fromisoformat reads them as microseconds. -/
def parseFrac (ds : List Char) : Option Nat :=
  if ds = [] then none
  else if ds.all Char.isDigit then
    let t := ds.take 6
    some (digitsToNat t * 10 ^ (6 - t.length))
  else none

def isLeap (y : Nat) : Bool := (y % 4 = 0 && y % 100 ≠ 0) || y % 400 = 0

def daysInMonth (y m : Nat) : Nat :=
  if m = 2 then (if isLeap y then 29 else 28)
  else if m = 4 ∨ m = 6 ∨ m = 9 ∨ m = 11 then 30
  else 31

def daysBeforeMonth (y m : Nat) : Nat :=
  (List.range (m - 1)).foldl (fun acc i => acc + daysInMonth y (i + 1)) 0

def daysBeforeYear (y : Nat) : Nat :=
  365 * (y - 1) + (y - 1) / 4 - (y - 1) / 100 + (y - 1) / 400

/-- The whole number of microseconds from 0001-01-01T00:00:00. -/
def dateMicros (f : IsoFields) : Nat :=
  ((daysBeforeYear f.year + daysBeforeMonth f.year f.month + (f.day - 1)) * 86400
    + f.hour * 3600 + f.minute * 60 + f.second) * 1000000 + f.micro

/-- Seconds (with microsecond fraction) from 0001-01-01T00:00:00, as the
single rational microseconds/10^6. -/
def dateValF (f : IsoFields) : ℚ := mkRat (dateMicros f) 1000000

/-- Parses the naive ISO-8601 forms accepted by the source after its
preprocessing: date, optionally followed by a T or space separator and
HH:MM, optionally :SS, optionally a fractional part.  Out-of-range fields
make fromisoformat raise, modelled as none. -/
def parseIsoFields (l : List Char) : Option IsoFields := do
  let (y, r) ← takeDigits 4 l
  let r ← expectChar '-' r
  let (mo, r) ← takeDigits 2 r
  let r ← expectChar '-' r
  let (d, r) ← takeDigits 2 r
  let (h, mi, s, mic) ←
    (match r with
     | [] => some (0, 0, 0, 0)
     | sep :: r' =>
       if sep = 'T' ∨ sep = ' ' then do
         let (h, r2) ← takeDigits 2 r'
         let r2 ← expectChar ':' r2
         let (mi, r2) ← takeDigits 2 r2
         match r2 with
         | [] => some (h, mi, 0, 0)
         | ':' :: r3 => do
           let (s, r4) ← takeDigits 2 r3
           match r4 with
           | [] => some (h, mi, s, 0)
           | '.' :: ds => do
             let mic ← parseFrac ds
             some (h, mi, s, mic)
           | _ => none
         | _ => none
       else none)
  if 1 ≤ y ∧ 1 ≤ mo ∧ mo ≤ 12 ∧ 1 ≤ d ∧ d ≤ daysInMonth y mo ∧
     h ≤ 23 ∧ mi ≤ 59 ∧ s ≤ 59 then
    some ⟨y, mo, d, h, mi, s, mic⟩
  else none

/-- The net effect of the source's preprocessing on a naive/UTC string:
drop a trailing Z (which it rewrites to +00:00) or a trailing +00:00. -/
def dropUtcSuffix (l : List Char) : List Char :=
  if ['Z'].isSuffixOf l then l.dropLast
  else if "+00:00".data.isSuffixOf l then l.take (l.length - 6)
  else l

structure LogPattern where
  pattern : String
  count : Nat
  firstOccurrence : String
  lastOccurrence : String
  errorClass : Option String := none
deriving DecidableEq, Repr

structure RankedCause where
  pattern : LogPattern
  rank : Nat
  severity_score : Nat
  dependency_score : Nat
  reason : String
deriving DecidableEq, Repr

structure ErrorCluster where
  cluster_id : String
  timestamp : String
  patterns : List LogPattern := []
  root_causes : List RankedCause := []
  root_cause : Option LogPattern := none
  effects : List LogPattern := []
deriving DecidableEq, Repr

namespace ErrorCorrelator

/-- ErrorCorrelator._parse_timestamp: the empty string is falsy and
returns None at once. -/
def parse_timestamp (ts : String) : Option ℚ :=
  if ts = "" then none
  else (parseIsoFields (dropUtcSuffix ts.data)).map dateValF

/-- The value of datetime.min in this encoding. -/
def datetimeMin : ℚ := 0

/-- The sort key in cluster_by_time: parse_timestamp(p.firstOccurrence) or
datetime.min. -/
def sortKey (p : LogPattern) : ℚ := (parse_timestamp p.firstOccurrence).getD datetimeMin

end ErrorCorrelator

def patternLE (a b : LogPattern) : Prop :=
  ErrorCorrelator.sortKey a ≤ ErrorCorrelator.sortKey b

instance : DecidableRel patternLE := fun _ _ => inferInstanceAs (Decidable (_ ≤ _))

instance : IsTotal LogPattern patternLE := ⟨fun _ _ => le_total _ _⟩

instance : IsTrans LogPattern patternLE := ⟨fun _ _ _ => le_trans⟩

namespace ErrorCorrelator

/-- The stable ascending sort of cluster_by_time (Python sorted is a
stable sort by key). -/
def sortedPatterns (patterns : List LogPattern) : List LogPattern :=
  List.insertionSort patternLE patterns

end ErrorCorrelator

def updateIdx {α : Type} : List α → Nat → (α → α) → List α
  | [], _, _ => []
  | x :: t, 0, f => f x :: t
  | x :: t, n + 1, f => x :: updateIdx t n f

namespace ErrorCorrelator

/-- The walk over the sorted patterns in cluster_by_time.  The source
mutates current_cluster, an alias of an element of clusters, so the state
here is the clusters list plus the index of the current cluster (None
until the first timed pattern) and last_time.  A pattern with an
unparsable timestamp appends a standalone cluster and leaves
current_cluster and last_time untouched. -/
def clusterStep (window_seconds : ℚ) :
    List LogPattern → List ErrorCluster → Option Nat → Option ℚ → List ErrorCluster
  | [], clusters, _, _ => clusters
  | p :: rest, clusters, current_idx, last_time =>
    match parse_timestamp p.firstOccurrence with
    | none =>
      clusterStep window_seconds rest
        (clusters ++ [{ cluster_id := "cluster_" ++ toString clusters.length,
                        timestamp := p.firstOccurrence,
                        patterns := [p] }])
        current_idx last_time
    | some t =>
      match current_idx, last_time with
      | some idx, some lt =>
        if t - lt ≤ window_seconds then
          clusterStep window_seconds rest
            (updateIdx clusters idx (fun c => { c with patterns := c.patterns ++ [p] }))
            (some idx) (some t)
        else
          clusterStep window_seconds rest
            (clusters ++ [{ cluster_id := "cluster_" ++ toString clusters.length,
                            timestamp := p.firstOccurrence,
                            patterns := [p] }])
            (some clusters.length) (some t)
      | _, _ =>
        clusterStep window_seconds rest
          (clusters ++ [{ cluster_id := "cluster_" ++ toString clusters.length,
                          timestamp := p.firstOccurrence,
                          patterns := [p] }])
          (some clusters.length) (some t)

/-- ErrorCorrelator.cluster_by_time. -/
def cluster_by_time (patterns : List LogPattern) (window_seconds : ℚ) :
    List ErrorCluster :=
  if patterns.isEmpty then []
  else clusterStep window_seconds (sortedPatterns patterns) [] none none

/-- ErrorCorrelator._get_severity_score. -/
def get_severity_score (p? : Option LogPattern) : Nat :=
  match p? with
  | none => 0
  | some p =>
    let text := strToLower p.pattern ++
      (match p.errorClass with
       | some ec => if ec = "" then "" else " " ++ strToLower ec
       | none => "")
    if ["fatal", "panic", "critical", "emerg"].any (fun w => substrB w text) then 100
    else if ["error", "exception", "fail", "crash"].any (fun w => substrB w text) then 80
    else if ["warning", "warn"].any (fun w => substrB w text) then 50
    else 10

/-- The dependency priority dict of rank_by_dependency:
{svc.lower(): i for i, svc in enumerate(reversed(graph))} with Python dict
update semantics. -/
def buildDepPriority (graph : List String) : List (String × Nat) :=
  (graph.reverse.enum).foldl (fun acc e => updateA acc (strToLower e.2) e.1) []

/-- ErrorCorrelator._get_dependency_score. -/
def get_dependency_score (p : LogPattern) (dep_priority : List (String × Nat)) : Nat :=
  if dep_priority = [] then 0
  else
    dep_priority.foldl
      (fun best e => if substrB e.1 (strToLower p.pattern) then max best e.2 else best) 0

/-- ErrorCorrelator._get_ranking_reason. -/
def get_ranking_reason (p : LogPattern) (severity dep_score : Nat) : String :=
  let reasons :=
    (if severity ≥ 100 then ["CRITICAL/FATAL severity"]
     else if severity ≥ 80 then ["ERROR level"]
     else if severity ≥ 50 then ["WARNING level"]
     else [])
    ++ (if dep_score > 0 then
          ["deep in dependency chain (depth=" ++ toString dep_score ++ ")"]
        else [])
    ++ (if p.count > 1 then ["occurred " ++ toString p.count ++ "x"] else [])
  if reasons = [] then "pattern detected" else "; ".intercalate reasons

end ErrorCorrelator

/-- A scored pattern of rank_by_dependency:
(pattern, severity, dependency score, reason). -/
abbrev Scored := LogPattern × Nat × Nat × String

/-- The descending (severity, dependency score) order of
scored_patterns.sort(key=lambda x: (x[1], x[2]), reverse=True); non-strict
on equal keys so that insertion sort reproduces Python's stable sort. -/
def scoredGE (a b : Scored) : Prop :=
  b.2.1 < a.2.1 ∨ (a.2.1 = b.2.1 ∧ b.2.2.1 ≤ a.2.2.1)

instance : DecidableRel scoredGE := fun _ _ => by
  unfold scoredGE
  infer_instance

namespace ErrorCorrelator

/-- The scored_patterns list built inside rank_by_dependency: each pattern
with severity at least WARNING (50) or a positive dependency score, tupled
with its scores and reason. -/
def scoredOf (cluster : ErrorCluster) (dependency_graph : List String) :
    List Scored :=
  let dep_priority := buildDepPriority dependency_graph
  cluster.patterns.filterMap (fun p =>
    let severity := get_severity_score (some p)
    let dep_score := get_dependency_score p dep_priority
    let reason := get_ranking_reason p severity dep_score
    if severity ≥ 50 ∨ dep_score > 0 then some (p, severity, dep_score, reason)
    else none)

/-- The ranked root causes of rank_by_dependency: the scored patterns
sorted descending by (severity, dependency score) — Python's stable
reverse sort — truncated to the default max_root_causes of 5 and
enumerated from rank 1. -/
def rankedOf (cluster : ErrorCluster) (dependency_graph : List String) :
    List RankedCause :=
  ((List.insertionSort scoredGE (scoredOf cluster dependency_graph)).take 5).enum.map
    (fun e => { pattern := e.2.1, rank := e.1 + 1, severity_score := e.2.2.1,
                dependency_score := e.2.2.2.1, reason := e.2.2.2.2 })

/-- ErrorCorrelator.rank_by_dependency with the default max_root_causes=5;
returns the updated cluster instead of mutating it in place.  Note
root_cause keeps its previous value when root_causes comes out empty, and
effects drops every pattern whose pattern text occurs among the root-cause
pattern texts. -/
def rank_by_dependency (cluster : ErrorCluster) (dependency_graph : List String) :
    ErrorCluster :=
  if cluster.patterns.isEmpty then cluster
  else
    let root_causes := rankedOf cluster dependency_graph
    let root_cause :=
      match root_causes.head? with
      | some rc => some rc.pattern
      | none => cluster.root_cause
    let cause_texts := root_causes.map (fun rc => rc.pattern.pattern)
    let effects := cluster.patterns.filter (fun p => !(cause_texts.contains p.pattern))
    { cluster with root_causes := root_causes, root_cause := root_cause,
                   effects := effects }

end ErrorCorrelator

/-! ## The file system

Patching is whole-file read-modify-write.  Text files hold strings; the
structured-markup patcher works on parsed element trees, so its files are
modelled in parsed form. -/

/-- An ElementTree element: tag, text (the text before the first child,
None when absent), children. -/
inductive XmlElem where
  | mk (tag : String) (text : Option String) (children : List XmlElem)

mutual

def XmlElem.eqDec : (a b : XmlElem) → Decidable (a = b)
  | .mk t1 x1 cs1, .mk t2 x2 cs2 =>
    match decEq t1 t2 with
    | isFalse h => isFalse (fun he => h (by cases he; rfl))
    | isTrue h1 =>
      match decEq x1 x2 with
      | isFalse h => isFalse (fun he => h (by cases he; rfl))
      | isTrue h2 =>
        match XmlElem.eqDecL cs1 cs2 with
        | isFalse h => isFalse (fun he => h (by cases he; rfl))
        | isTrue h3 => isTrue (by rw [h1, h2, h3])

def XmlElem.eqDecL : (a b : List XmlElem) → Decidable (a = b)
  | [], [] => isTrue rfl
  | [], _ :: _ => isFalse (fun h => List.noConfusion h)
  | _ :: _, [] => isFalse (fun h => List.noConfusion h)
  | a :: as, b :: bs =>
    match XmlElem.eqDec a b with
    | isFalse h => isFalse (fun he => h (by cases he; rfl))
    | isTrue h1 =>
      match XmlElem.eqDecL as bs with
      | isFalse h => isFalse (fun he => h (by cases he; rfl))
      | isTrue h2 => isTrue (by rw [h1, h2])

end

instance : DecidableEq XmlElem := XmlElem.eqDec

instance : Repr XmlElem := ⟨fun _ _ => Std.Format.text "<xmlElem>"⟩

def XmlElem.tag : XmlElem → String
  | .mk t _ _ => t

def XmlElem.text : XmlElem → Option String
  | .mk _ tx _ => tx

def XmlElem.children : XmlElem → List XmlElem
  | .mk _ _ cs => cs

structure FileSystem where
  text : List (String × String) := []
  xml : List (String × XmlElem) := []
deriving DecidableEq, Repr

/-! ## src/remediation/patcher.py -/

structure PatchResult where
  success : Bool
  message : String
  diff : String := ""
deriving DecidableEq, Repr

namespace CodePatcher

/-- CodePatcher.apply_patch as a state transformer on the file system.
The unified-diff audit text produced by difflib is not modelled (no
behaviour depends on it); the diff field is left empty. -/
def apply_patch (fs : FileSystem) (file_path original_context replacement_text : String) :
    PatchResult × FileSystem :=
  match lookupA fs.text file_path with
  | none => (⟨false, "File not found: " ++ file_path, ""⟩, fs)
  | some content =>
    if !(substrB original_context content) then
      if substrB (wsCollapse original_context) (wsCollapse content) then
        (⟨false, "Context mismatch (Whitespace difference). Ensure exact indentation.", ""⟩, fs)
      else
        (⟨false, "Context not found. The code may have changed (Drift Detected).", ""⟩, fs)
    else if strCount content original_context > 1 then
      (⟨false, "Ambiguous context: Found multiple matches. Provide more context.", ""⟩, fs)
    else
      let new_content := strReplace content original_context replacement_text
      (⟨true, "Patch applied successfully", ""⟩,
       { fs with text := updateA fs.text file_path new_content })

end CodePatcher

/-! ## src/remediation/xml_patcher.py -/

structure XmlPatchResult where
  success : Bool
  message : String
  diff : Option String := none
deriving DecidableEq, Repr

/-- The match test of _remove_block_by_child_tag: the element's tag ends
with (or equals) parent_tag and some direct child's tag ends with (or
equals) child_tag with text equal to child_value.  (A child whose text is
None never equals a string value.) -/
def elemMatches (parent_tag child_tag child_value : String) (e : XmlElem) : Bool :=
  (strEndsWith e.tag parent_tag || e.tag == parent_tag) &&
  e.children.any (fun child =>
    (strEndsWith child.tag child_tag || child.tag == child_tag) &&
    child.text == some child_value)

mutual

/-- root.iter(): depth-first preorder enumeration, the element itself
first. -/
def iterE : XmlElem → List XmlElem
  | .mk t tx cs => .mk t tx cs :: iterL cs

def iterL : List XmlElem → List XmlElem
  | [] => []
  | c :: rest => iterE c ++ iterL rest

end

mutual

/-- Removes the first element in preorder (among proper descendants)
matching the predicate encoded by the three tags, returning none when no
descendant matches.  This reproduces found_parent.remove(found_node) for
the first match found by the source's iteration. -/
def removeFirstE (pt ct cv : String) : XmlElem → Option XmlElem
  | .mk t tx cs =>
    match removeFirstL pt ct cv cs with
    | some cs' => some (.mk t tx cs')
    | none => none

def removeFirstL (pt ct cv : String) : List XmlElem → Option (List XmlElem)
  | [] => none
  | c :: rest =>
    if elemMatches pt ct cv c then some rest
    else
      match removeFirstE pt ct cv c with
      | some c' => some (c' :: rest)
      | none =>
        match removeFirstL pt ct cv rest with
        | some rest' => some (c :: rest')
        | none => none

end

namespace XmlPatcher

/-- XmlPatcher._remove_block_by_child_tag on a parsed document: the search
over root.iter() takes the first match; when the match is the root itself
the source has no parent to remove it from and falls through to the write
with the tree unchanged; when there is no match it returns failure before
the write. -/
def removeBlockByChildTag (doc : XmlElem) (parent_tag child_tag child_value : String) :
    XmlPatchResult × XmlElem :=
  match (iterE doc).find? (elemMatches parent_tag child_tag child_value) with
  | none =>
    (⟨false, "Could not find <" ++ parent_tag ++ "> with " ++ child_tag ++ "=" ++
       child_value, none⟩, doc)
  | some _ =>
    if elemMatches parent_tag child_tag child_value doc then
      (⟨true, "Successfully removed <" ++ parent_tag ++ "> for " ++ child_value, none⟩, doc)
    else
      match removeFirstE parent_tag child_tag child_value doc with
      | some doc' =>
        (⟨true, "Successfully removed <" ++ parent_tag ++ "> for " ++ child_value, none⟩, doc')
      | none =>
        (⟨false, "Could not find <" ++ parent_tag ++ "> with " ++ child_tag ++ "=" ++
           child_value, none⟩, doc)

/-- _remove_block_by_child_tag including the file read and the write:
a missing or unparsable file raises inside the try and is caught by the
generic except; the write happens only on the success path. -/
def removeBlockFS (fs : FileSystem) (file_path parent_tag child_tag child_value : String) :
    XmlPatchResult × FileSystem :=
  match lookupA fs.xml file_path with
  | none => (⟨false, "Error patching XML: no such file", none⟩, fs)
  | some doc =>
    let (res, doc') := removeBlockByChildTag doc parent_tag child_tag child_value
    if res.success then (res, { fs with xml := updateA fs.xml file_path doc' })
    else (res, fs)

/-- XmlPatcher.remove_dependency. -/
def remove_dependency (fs : FileSystem) (file_path artifact_id : String) :
    XmlPatchResult × FileSystem :=
  removeBlockFS fs file_path "dependency" "artifactId" artifact_id

/-- XmlPatcher.remove_plugin. -/
def remove_plugin (fs : FileSystem) (file_path artifact_id : String) :
    XmlPatchResult × FileSystem :=
  removeBlockFS fs file_path "plugin" "artifactId" artifact_id

/-- XmlPatcher.validate_xml, modelled for the xmllint-present environment:
a file that exists is a parsed (hence structurally valid) document; a
missing file makes xmllint exit nonzero. -/
def validate_xml (fs : FileSystem) (file_path : String) : Bool × String :=
  match lookupA fs.xml file_path with
  | some _ => (true, "Valid XML")
  | none => (false, "failed to load external entity")

end XmlPatcher

/-! ## src/ai/agent.py -/

/-- An external effectful call made by the executor, recorded in the
execution state so that theorems can speak about which routines were
invoked. -/
inductive ExecCall where
  | patch (file_path original_context replacement_text : String)
  | xmlRemove (parent_tag file_path artifact_id : String)
  | validate (file_path : String)
  | runCmd (command : String)
deriving DecidableEq, Repr

structure ExecState where
  fs : FileSystem
  logs : List String := []
  calls : List ExecCall := []
deriving DecidableEq, Repr

namespace RemediationAgent

/-- The tail of the XML_EDIT branch after a known selector was dispatched:
failure check, success log, structural validation, and the mvn step.  The
agent module never imports os, so the mvn step always raises NameError
inside its try and is caught by the broad except, leaving all_success
untouched.  Returns the new state and the success flag contributed by this
action. -/
def xmlFollowUp (st : ExecState) (res : XmlPatchResult) (fp : String) :
    ExecState × Bool :=
  if !res.success then
    ({ st with logs := st.logs ++ ["FAILED: " ++ res.message] }, false)
  else
    let st := { st with logs := st.logs ++ ["SUCCESS: XML Patch applied. " ++ res.message] }
    let st := { st with calls := st.calls ++ [ExecCall.validate fp] }
    let (valid, msg) := XmlPatcher.validate_xml st.fs fp
    if !valid then
      ({ st with logs := st.logs ++ ["VALIDATION FAILED: XML structure invalid. " ++ msg] },
       false)
    else if strEndsWith fp "pom.xml" then
      ({ st with logs := st.logs ++
          ["Running 'mvn validate'...",
           "VALIDATION ERROR: Could not run mvn. name 'os' is not defined"] }, true)
    else (st, true)

/-- RemediationAgent._execute_actions, with the aggregate all_success flag
threaded explicitly.  The COMMAND fallthrough calls
SafetyPolicy.evaluate_command, which can raise (Except.error) on a
whitespace-only command string; the exception propagates out of the
executor as in the source. -/
def execute_actions (cfg : SafetyConfiguration) :
    ExecState → Bool → List RemediationAction → Option GitConfig →
    Except String (Bool × ExecState)
  | st, all_success, [], _ => .ok (all_success, st)
  | st, all_success, action :: rest, git_config =>
    match action.type with
    | .FILE_EDIT =>
      let st := { st with logs := st.logs ++
        ["Attempting Smart Patch on " ++ showOpt action.file_path ++ "..."] }
      if optStrFalsy action.file_path || optStrFalsy action.original_context ||
         optStrFalsy action.replacement_text then
        let st := { st with logs := st.logs ++
          ["FAILED: Malformed FILE_EDIT action. Missing path/context/replacement."] }
        execute_actions cfg st false rest git_config
      else
        let fp := action.file_path.getD ""
        let oc := action.original_context.getD ""
        let rt := action.replacement_text.getD ""
        let st := { st with calls := st.calls ++ [ExecCall.patch fp oc rt] }
        let pr := CodePatcher.apply_patch st.fs fp oc rt
        let st := { st with fs := pr.2 }
        let st :=
          if pr.1.success then
            { st with logs := st.logs ++ ["SUCCESS: Patch applied to " ++ fp] }
          else
            { st with logs := st.logs ++ ["FAILED: " ++ pr.1.message] }
        execute_actions cfg st (all_success && pr.1.success) rest git_config
    | .XML_EDIT =>
      let st := { st with logs := st.logs ++
        ["Attempting Structured XML Edit on " ++ showOpt action.file_path ++ "..."] }
      if optStrFalsy action.file_path || optStrFalsy action.xml_selector ||
         optStrFalsy action.xml_value then
        let st := { st with logs := st.logs ++
          ["FAILED: Malformed XML_EDIT. Missing path/selector/value."] }
        execute_actions cfg st false rest git_config
      else
        let fp := action.file_path.getD ""
        let sel := action.xml_selector.getD ""
        let v := action.xml_value.getD ""
        if sel = "dependency" then
          let st := { st with calls := st.calls ++ [ExecCall.xmlRemove "dependency" fp v] }
          let rx := XmlPatcher.remove_dependency st.fs fp v
          let st := { st with fs := rx.2 }
          let (st, ok) := xmlFollowUp st rx.1 fp
          execute_actions cfg st (all_success && ok) rest git_config
        else if sel = "plugin" then
          let st := { st with calls := st.calls ++ [ExecCall.xmlRemove "plugin" fp v] }
          let rx := XmlPatcher.remove_plugin st.fs fp v
          let st := { st with fs := rx.2 }
          let (st, ok) := xmlFollowUp st rx.1 fp
          execute_actions cfg st (all_success && ok) rest git_config
        else
          -- unknown selector: the source still calls remove_dependency as a
          -- default before recording the failure and skipping validation
          let st := { st with calls := st.calls ++ [ExecCall.xmlRemove "dependency" fp v] }
          let rx := XmlPatcher.remove_dependency st.fs fp v
          let st := { st with fs := rx.2 }
          let st := { st with logs := st.logs ++ ["FAILED: Unknown selector " ++ sel] }
          execute_actions cfg st false rest git_config
    | .RUNTIME_OP =>
      let st := { st with logs := st.logs ++
        ["Executing Runtime Operation: " ++ action.command] }
      execute_actions cfg st all_success rest git_config
    | _ =>
      let cmd_str0 := action.to_string
      let cmd_str :=
        match git_config with
        | some gc =>
          if strStartsWith (pyStripS cmd_str0) "git " then
            let parts := splitOnce (pyStripS cmd_str0) ' '
            parts.1 ++ " -c user.name='" ++ gc.user_name ++ "' -c user.email='" ++
              gc.user_email ++ "' " ++ parts.2
          else cmd_str0
        | none => cmd_str0
      let st := { st with logs := st.logs ++ ["Executing: " ++ cmd_str] }
      match SafetyPolicy.evaluate_command cfg cmd_str none with
      | .error e => .error e
      | .ok .BLOCKED =>
        let st := { st with logs := st.logs ++ ["RUNTIME BLOCKED: " ++ cmd_str] }
        execute_actions cfg st false rest git_config
      | .ok _ =>
        let st := { st with calls := st.calls ++ [.runCmd cmd_str] }
        execute_actions cfg st all_success rest git_config

end RemediationAgent

structure AgentResult where
  proposal : RemediationProposal
  confidence_result : ConfidenceResult
  executed : Bool
  execution_logs : List String
deriving DecidableEq, Repr

namespace RemediationAgent

/-- The Python bool rendered inside the feedback log f-string. -/
def pyBool : Bool → String
  | true => "True"
  | false => "False"

/-- RemediationAgent.run: evaluate, then on SAFE execute all actions and
record feedback.  The source contains the record_feedback call twice
(a duplicated block), so the store is updated twice per SAFE run. -/
def run (cfg : SafetyConfiguration) (cache : FeedbackCache) (fs : FileSystem)
    (proposal : RemediationProposal) :
    Except String (AgentResult × FeedbackCache × ExecState) :=
  let result := ConfidenceScorer.evaluate cache proposal proposal.confidence_score
  match result.decision with
  | .SAFE =>
    match execute_actions cfg { fs := fs } true proposal.actions proposal.git_config with
    | .error e => .error e
    | .ok (success, st) =>
      let cache := FeedbackStore.record_feedback cache proposal.plan.title success
      let cache := FeedbackStore.record_feedback cache proposal.plan.title success
      let logs := st.logs ++
        ["Recorded feedback for '" ++ proposal.plan.title ++ "': Success=" ++ pyBool success]
      .ok ({ proposal := proposal, confidence_result := result, executed := true,
             execution_logs := logs }, cache, st)
  | .REQUIRE_APPROVAL =>
    .ok ({ proposal := proposal, confidence_result := result, executed := false,
           execution_logs := ["Execution blocked: Human approval required."] },
         cache, { fs := fs })
  | .BLOCKED =>
    .ok ({ proposal := proposal, confidence_result := result, executed := false,
           execution_logs := ["Execution blocked: Dangerous commands detected."] },
         cache, { fs := fs })

end RemediationAgent

/-! ## Concrete instances used by witnesses and counterexamples -/

/-- A configuration whose user whitelist trusts the helm base command. -/
def cfgWhitelistHelm : SafetyConfiguration := { custom_allowed_commands := ["helm"] }

/-- A production infrastructure direct-apply context (matrix result
REQUIRE_APPROVAL). -/
def ctxProdInfraDirect : SafetyContext := ⟨.PROD, .INFRA, .DIRECT_APPLY⟩

/-- A configuration with a matrix override whose level string is not a
SafetyLevel member. -/
def cfgBadOverride : SafetyConfiguration :=
  { matrix_overrides := [{ environment := some "DEV", scope := some "INFRA",
                           level := some "ALLOW" }] }

/-- A configuration with a valid matrix override for (PROD, INFRA). -/
def cfgOverrideProdInfraSafe : SafetyConfiguration :=
  { matrix_overrides := [{ environment := some "PROD", scope := some "INFRA",
                           level := some "SAFE" }] }

/-- A pattern with a parsable firstOccurrence timestamp. -/
def patTimed : LogPattern :=
  { pattern := "db timeout", count := 1,
    firstOccurrence := "2024-05-01T10:00:00", lastOccurrence := "" }

/-- A pattern whose firstOccurrence does not parse. -/
def patNoTs : LogPattern :=
  { pattern := "garbled", count := 1,
    firstOccurrence := "not-a-timestamp", lastOccurrence := "" }

/-- A second pattern whose firstOccurrence does not parse. -/
def patNoTs2 : LogPattern :=
  { pattern := "garbled two", count := 1,
    firstOccurrence := "also-garbage", lastOccurrence := "" }

/-- Duplicate-text patterns: same pattern text, different error class, so
one scores 100 and the other 10. -/
def patDupA : LogPattern :=
  { pattern := "service ok", count := 1, firstOccurrence := "",
    lastOccurrence := "", errorClass := some "FatalError" }

def patDupB : LogPattern :=
  { pattern := "service ok", count := 1, firstOccurrence := "",
    lastOccurrence := "", errorClass := none }

def clusterDup : ErrorCluster :=
  { cluster_id := "cluster_0", timestamp := "", patterns := [patDupA, patDupB] }

/-- Distinct-text patterns: one ERROR-severity root cause and one benign
effect. -/
def patErr : LogPattern :=
  { pattern := "error connecting to db", count := 1, firstOccurrence := "",
    lastOccurrence := "" }

def patInfo : LogPattern :=
  { pattern := "all good", count := 1, firstOccurrence := "", lastOccurrence := "" }

def clusterDistinct : ErrorCluster :=
  { cluster_id := "cluster_0", timestamp := "", patterns := [patErr, patInfo] }

/-- A parsed pom document with two dependency blocks. -/
def pomDoc : XmlElem :=
  .mk "project" none
    [.mk "dependencies" none
      [.mk "dependency" none
        [.mk "artifactId" (some "guava") [], .mk "version" (some "1.0") []],
       .mk "dependency" none
        [.mk "artifactId" (some "junit") []]]]

/-- A file system holding that pom at pom.xml. -/
def fsPom : FileSystem := { xml := [("pom.xml", pomDoc)] }

/-- A FILE_EDIT action whose replacement_text is the empty string (a pure
deletion). -/
def actEditEmptyRepl : RemediationAction :=
  { type := .FILE_EDIT, command := "delete the retry block",
    file_path := some "app.py", original_context := some "retry()",
    replacement_text := some "" }

/-- An XML_EDIT action with a selector that is neither dependency nor
plugin. -/
def actUnknownSel : RemediationAction :=
  { type := .XML_EDIT, command := "remove guava",
    file_path := some "pom.xml", xml_selector := some "mystery",
    xml_value := some "guava" }

/-- A runtime-op action, used to show the executor continues after a
failed action. -/
def actRuntime : RemediationAction :=
  { type := .RUNTIME_OP, command := "kubectl rollout restart deploy/app" }

/-- pomDoc after the guava dependency block is removed. -/
def pomDocAfter : XmlElem :=
  .mk "project" none
    [.mk "dependencies" none
      [.mk "dependency" none
        [.mk "artifactId" (some "junit") []]]]

/-- A proposal whose plan title has verified history and whose score
routes to SAFE. -/
def propFix : RemediationProposal :=
  { plan := { title := "Fix database pool", reasoning := "r",
              validation_strategy := "v", risk_assessment := "Low" },
    actions := [], confidence_score := 0.99 }

/-- A feedback cache giving propFix three successful attempts. -/
def cacheFix : FeedbackCache := [("Fix database pool", ⟨3, 3⟩)]

/-! ## Theorems -/

/-- C7: for every context, a matrixOverrides entry exactly matching
(environment, scope) is returned verbatim (its level being a valid member
value) and takes precedence over the default table; with no matching
override, (DEV, INFRA, DIRECT_APPLY) is SAFE, (PROD, INFRA, DIRECT_APPLY)
is REQUIRE_APPROVAL, (any environment, SOURCE_CODE, DIRECT_APPLY) is
BLOCKED, and every combination matched by no rule of the table returns
REQUIRE_APPROVAL. -/
theorem matrix_override_and_table (cfg : SafetyConfiguration) (ctx : SafetyContext) :
    (∀ rule lvl, SafetyPolicy.matrixFind cfg ctx = some rule →
       SafetyLevel.ofString (rule.level.getD "REQUIRE_APPROVAL") = some lvl →
       SafetyPolicy.evaluate_matrix cfg ctx = .ok lvl) ∧
    (SafetyPolicy.matrixFind cfg ctx = none →
       (ctx = ⟨.DEV, .INFRA, .DIRECT_APPLY⟩ →
          SafetyPolicy.evaluate_matrix cfg ctx = .ok .SAFE) ∧
       (ctx = ⟨.PROD, .INFRA, .DIRECT_APPLY⟩ →
          SafetyPolicy.evaluate_matrix cfg ctx = .ok .REQUIRE_APPROVAL) ∧
       (ctx.scope = .SOURCE_CODE → ctx.execution_mode = .DIRECT_APPLY →
          SafetyPolicy.evaluate_matrix cfg ctx = .ok .BLOCKED) ∧
       (ctx.scope ≠ .SOURCE_CODE →
        ¬(ctx.scope = .INFRA ∧ ctx.execution_mode = .DIRECT_APPLY ∧
           (ctx.environment = .PROD ∨ ctx.environment = .DEV)) →
        ctx.scope ≠ .CONFIG →
          SafetyPolicy.evaluate_matrix cfg ctx = .ok .REQUIRE_APPROVAL)) := by
  constructor
  · intro rule lvl hfind hlvl
    simp [SafetyPolicy.evaluate_matrix, hfind, hlvl]
  · intro hnone
    refine ⟨?_, ?_, ?_, ?_⟩
    · rintro rfl
      simp [SafetyPolicy.evaluate_matrix, hnone]
    · rintro rfl
      simp [SafetyPolicy.evaluate_matrix, hnone]
    · intro hs hm
      simp [SafetyPolicy.evaluate_matrix, hnone, hs, hm]
    · intro h1 h2 h3
      obtain ⟨e, s, m⟩ := ctx
      simp only [SafetyPolicy.evaluate_matrix, hnone]
      cases e <;> cases s <;> cases m <;> simp_all

/-- Witness for C7: a matching override is returned verbatim, and the
default table evaluations at concrete contexts. -/
theorem matrix_override_and_table_witness :
    SafetyPolicy.evaluate_matrix cfgOverrideProdInfraSafe ctxProdInfraDirect = .ok .SAFE ∧
    SafetyPolicy.evaluate_matrix {} ⟨.DEV, .INFRA, .DIRECT_APPLY⟩ = .ok .SAFE ∧
    SafetyPolicy.evaluate_matrix {} ⟨.PROD, .INFRA, .DIRECT_APPLY⟩ = .ok .REQUIRE_APPROVAL ∧
    SafetyPolicy.evaluate_matrix {} ⟨.UNKNOWN, .SOURCE_CODE, .DIRECT_APPLY⟩ = .ok .BLOCKED ∧
    SafetyPolicy.evaluate_matrix {} ⟨.UNKNOWN, .UNKNOWN, .AUTO_PR⟩ = .ok .REQUIRE_APPROVAL := by
  refine ⟨?_, ?_, ?_, ?_, ?_⟩
  · exact (matrix_override_and_table cfgOverrideProdInfraSafe ctxProdInfraDirect).1
      { environment := some "PROD", scope := some "INFRA", level := some "SAFE" }
      .SAFE (by decide) (by decide)
  · exact ((matrix_override_and_table {} _).2 (by decide)).1 rfl
  · exact ((matrix_override_and_table {} _).2 (by decide)).2.1 rfl
  · exact ((matrix_override_and_table {} _).2 (by decide)).2.2.1 rfl rfl
  · exact ((matrix_override_and_table {} _).2 (by decide)).2.2.2
      (by decide) (by decide) (by decide)

/-- C2 counterexample: a command whose base command is user-whitelisted
and which matches no blocklist pattern, with an attached context whose
matrix result is REQUIRE_APPROVAL (not a BLOCKED veto), is classified
REQUIRE_APPROVAL, not SAFE: the matrix's REQUIRE_APPROVAL outranks the
user whitelist. -/
theorem whitelist_matrix_veto_cex :
    (pySplitWsS (pyStripS "helm rollback myapp")).head? = some "helm" ∧
    "helm" ∈ cfgWhitelistHelm.custom_allowed_commands ∧
    (∀ p ∈ cfgWhitelistHelm.custom_blocked_patterns,
       reSearch p (pyStripS "helm rollback myapp") = false) ∧
    (∀ p ∈ SafetyPolicy.BLOCKED_PATTERNS,
       reSearch p (pyStripS "helm rollback myapp") = false) ∧
    SafetyPolicy.evaluate_matrix cfgWhitelistHelm ctxProdInfraDirect =
      .ok .REQUIRE_APPROVAL ∧
    SafetyPolicy.evaluate_command cfgWhitelistHelm "helm rollback myapp"
      (some ctxProdInfraDirect) = .ok .REQUIRE_APPROVAL := by
  decide

/-- C2 amended: for a command whose base command is user-whitelisted and
which matches neither blocklist, the classification with an attached
context is exactly the matrix result (a ValueError from the matrix
propagates): BLOCKED and REQUIRE_APPROVAL both pre-empt the whitelist, and
only a SAFE matrix result lets the whitelist classify the command SAFE. -/
theorem whitelist_requires_matrix_pass (cfg : SafetyConfiguration)
    (ctx : SafetyContext) (cmd base : String) (ws : List String)
    (hb1 : ∀ p ∈ cfg.custom_blocked_patterns, reSearch p (pyStripS cmd) = false)
    (hb2 : ∀ p ∈ SafetyPolicy.BLOCKED_PATTERNS, reSearch p (pyStripS cmd) = false)
    (hsplit : pySplitWsS (pyStripS cmd) = base :: ws)
    (hwl : base ∈ cfg.custom_allowed_commands) :
    SafetyPolicy.evaluate_command cfg cmd (some ctx) =
      SafetyPolicy.evaluate_matrix cfg ctx := by
  have h1 : cfg.custom_blocked_patterns.any (fun p => reSearch p (pyStripS cmd)) = false := by
    simp only [List.any_eq_false]
    intro p hp
    simp [hb1 p hp]
  have h2 : SafetyPolicy.BLOCKED_PATTERNS.any (fun p => reSearch p (pyStripS cmd)) = false := by
    simp only [List.any_eq_false]
    intro p hp
    simp [hb2 p hp]
  cases hm : SafetyPolicy.evaluate_matrix cfg ctx with
  | error e => simp [SafetyPolicy.evaluate_command, h1, h2, hm]
  | ok lvl =>
    cases lvl <;>
      simp [SafetyPolicy.evaluate_command, SafetyPolicy.commandLookup, h1, h2, hm,
        hsplit, hwl]

/-- Witness for C2's amended theorem: with a DEV infra direct-apply
context the matrix result is SAFE and the whitelisted command is SAFE. -/
theorem whitelist_requires_matrix_pass_witness :
    SafetyPolicy.evaluate_command cfgWhitelistHelm "helm rollback myapp"
      (some ⟨.DEV, .INFRA, .DIRECT_APPLY⟩) = .ok .SAFE :=
  (whitelist_requires_matrix_pass cfgWhitelistHelm ⟨.DEV, .INFRA, .DIRECT_APPLY⟩
      "helm rollback myapp" "helm" ["rollback", "myapp"]
      (by decide) (by decide) (by decide) (by decide)).trans (by decide)

theorem foldr_splitAux_ne_nil (l : List Char) : l.foldr splitAux [[]] ≠ [] := by
  induction l with
  | nil => simp
  | cons c t ih =>
    simp only [List.foldr_cons, splitAux]
    split
    · simp
    · split <;> simp

theorem pySplitWs_ne_nil (l : List Char) (h : ∃ c ∈ l, ¬ c.isWhitespace) :
    pySplitWs l ≠ [] := by
  induction l with
  | nil => simp at h
  | cons c t ih =>
    by_cases hw : c.isWhitespace
    · have ht : ∃ d ∈ t, ¬ d.isWhitespace := by
        obtain ⟨d, hd, hdw⟩ := h
        rcases List.mem_cons.mp hd with rfl | hd'
        · exact absurd hw hdw
        · exact ⟨d, hd', hdw⟩
      have := ih ht
      simpa [pySplitWs, splitAux, hw] using this
    · simp only [pySplitWs, List.foldr_cons, splitAux, hw, if_false]
      rcases hx : t.foldr splitAux [[]] with _ | ⟨w, ws⟩
      · exact absurd hx (foldr_splitAux_ne_nil t)
      · simp

theorem dropWhile_preserves_nonWs (l : List Char) (h : ∃ c ∈ l, ¬ c.isWhitespace) :
    ∃ c ∈ l.dropWhile Char.isWhitespace, ¬ c.isWhitespace := by
  induction l with
  | nil => simp at h
  | cons c t ih =>
    by_cases hw : c.isWhitespace
    · have ht : ∃ d ∈ t, ¬ d.isWhitespace := by
        obtain ⟨d, hd, hdw⟩ := h
        rcases List.mem_cons.mp hd with rfl | hd'
        · exact absurd hw hdw
        · exact ⟨d, hd', hdw⟩
      simpa [List.dropWhile_cons, hw] using ih ht
    · exact ⟨c, by simp [List.dropWhile_cons, hw], hw⟩

theorem pyStrip_preserves_nonWs (l : List Char) (h : ∃ c ∈ l, ¬ c.isWhitespace) :
    ∃ c ∈ pyStrip l, ¬ c.isWhitespace := by
  unfold pyStrip
  have h1 := dropWhile_preserves_nonWs l h
  have h2 : ∃ c ∈ (l.dropWhile Char.isWhitespace).reverse, ¬ c.isWhitespace := by
    obtain ⟨c, hc, hcw⟩ := h1
    exact ⟨c, List.mem_reverse.mpr hc, hcw⟩
  have h3 := dropWhile_preserves_nonWs _ h2
  obtain ⟨c, hc, hcw⟩ := h3
  exact ⟨c, List.mem_reverse.mpr hc, hcw⟩

/-- C6 counterexample: the safety functions do raise on two malformed
inputs.  evaluate_command on the empty (or whitespace-only) command
reaches command_str.split()[0] and raises IndexError; evaluate_matrix
with a matching override whose level string is not a SafetyLevel member
raises ValueError in the enum constructor. -/
theorem safety_raises_cex :
    SafetyPolicy.evaluate_command {} "" none =
      .error "IndexError: list index out of range" ∧
    SafetyPolicy.evaluate_command {} "   " none =
      .error "IndexError: list index out of range" ∧
    SafetyPolicy.evaluate_matrix cfgBadOverride ⟨.DEV, .INFRA, .DIRECT_APPLY⟩ =
      .error "ValueError: 'ALLOW' is not a valid SafetyLevel" := by
  decide

theorem commandLookup_ok (cfg : SafetyConfiguration) (cmd base : String)
    (ws : List String) (hs : pySplitWsS cmd = base :: ws) :
    ∃ lvl, SafetyPolicy.commandLookup cfg cmd = .ok lvl := by
  unfold SafetyPolicy.commandLookup
  rw [hs]
  dsimp only
  split_ifs <;> exact ⟨_, rfl⟩

/-- C6 amended: evaluate_matrix returns a SafetyLevel whenever any
matching override carries a valid level string (it raises ValueError
otherwise), and evaluate_command returns a SafetyLevel for every command
string containing at least one non-whitespace character whenever the
attached context (if any) makes the matrix return a level (it raises
IndexError on whitespace-only commands that pass the blocklists without a
matrix short circuit). -/
theorem safety_totality_amended (cfg : SafetyConfiguration) :
    (∀ ctx : SafetyContext,
       (∀ rule, SafetyPolicy.matrixFind cfg ctx = some rule →
          (SafetyLevel.ofString (rule.level.getD "REQUIRE_APPROVAL")).isSome = true) →
       ∃ lvl, SafetyPolicy.evaluate_matrix cfg ctx = .ok lvl) ∧
    (∀ (cmd : String) (ctx? : Option SafetyContext),
       (∃ c ∈ cmd.data, ¬ c.isWhitespace) →
       (∀ ctx, ctx? = some ctx →
          ∃ lvl, SafetyPolicy.evaluate_matrix cfg ctx = .ok lvl) →
       ∃ lvl, SafetyPolicy.evaluate_command cfg cmd ctx? = .ok lvl) := by
  constructor
  · intro ctx hov
    cases hfind : SafetyPolicy.matrixFind cfg ctx with
    | none =>
      simp only [SafetyPolicy.evaluate_matrix, hfind]
      split_ifs <;> exact ⟨_, rfl⟩
    | some rule =>
      obtain ⟨lvl, hlvl⟩ := Option.isSome_iff_exists.mp (hov rule hfind)
      simp only [SafetyPolicy.evaluate_matrix, hfind, hlvl]
      exact ⟨lvl, rfl⟩
  · intro cmd ctx? hcmd hctx
    obtain ⟨base, ws, hs⟩ : ∃ base ws, pySplitWsS (pyStripS cmd) = base :: ws := by
      have h1 : ∃ c ∈ (pyStripS cmd).data, ¬ c.isWhitespace := by
        simpa [pyStripS] using pyStrip_preserves_nonWs cmd.data hcmd
      have h2 := pySplitWs_ne_nil (pyStripS cmd).data h1
      rcases hq : pySplitWsS (pyStripS cmd) with _ | ⟨b, bs⟩
      · exfalso
        apply h2
        have hmap : (pySplitWs (pyStripS cmd).data).map String.mk = [] := by
          simpa [pySplitWsS] using hq
        exact List.map_eq_nil_iff.mp hmap
      · exact ⟨b, bs, rfl⟩
    unfold SafetyPolicy.evaluate_command
    dsimp only
    split_ifs
    · exact ⟨_, rfl⟩
    · exact ⟨_, rfl⟩
    · cases ctx? with
      | none => exact commandLookup_ok cfg _ base ws hs
      | some ctx =>
        obtain ⟨lvl, hm⟩ := hctx ctx rfl
        dsimp only
        rw [hm]
        cases lvl
        · exact commandLookup_ok cfg _ base ws hs
        · exact ⟨_, rfl⟩
        · exact ⟨_, rfl⟩

/-- Witness for C6's amended theorem at concrete inputs. -/
theorem safety_totality_amended_witness :
    (∃ lvl, SafetyPolicy.evaluate_matrix cfgOverrideProdInfraSafe ctxProdInfraDirect =
       .ok lvl) ∧
    (∃ lvl, SafetyPolicy.evaluate_command {} "rm -r build" none = .ok lvl) := by
  constructor
  · exact (safety_totality_amended cfgOverrideProdInfraSafe).1 ctxProdInfraDirect
      (by decide)
  · exact (safety_totality_amended {}).2 "rm -r build" none
      ⟨'r', by decide, by decide⟩ (by intro ctx h; cases h)

/-- Characterisation of ConfidenceScorer.evaluate: the final score is the
history blend (or the raw confidence without history) and the decision
follows the threshold / high-confidence / history case split. -/
theorem evaluate_characterisation (cache : FeedbackCache)
    (proposal : RemediationProposal) (raw : ℚ) :
    (ConfidenceScorer.evaluate cache proposal raw).final_score =
      (match FeedbackStore.get_success_rate cache proposal.plan.title with
       | some h => raw * 0.4 + h * 0.6
       | none => raw) ∧
    (ConfidenceScorer.evaluate cache proposal raw).decision =
      (if (match FeedbackStore.get_success_rate cache proposal.plan.title with
           | some h => raw * 0.4 + h * 0.6
           | none => raw) < ConfidenceScorer.current_threshold proposal then
         SafetyLevel.REQUIRE_APPROVAL
       else if (match FeedbackStore.get_success_rate cache proposal.plan.title with
                | some h => raw * 0.4 + h * 0.6
                | none => raw) ≥ ConfidenceScorer.HIGH_CONFIDENCE_THRESHOLD then
         (match FeedbackStore.get_success_rate cache proposal.plan.title with
          | none => SafetyLevel.REQUIRE_APPROVAL
          | some _ => SafetyLevel.SAFE)
       else SafetyLevel.REQUIRE_APPROVAL) := by
  cases hh : FeedbackStore.get_success_rate cache proposal.plan.title with
  | none =>
    simp only [ConfidenceScorer.evaluate, hh]
    split_ifs <;> simp
  | some h =>
    simp only [ConfidenceScorer.evaluate, hh]
    split_ifs <;> simp

theorem current_threshold_lt_high (proposal : RemediationProposal) :
    ConfidenceScorer.current_threshold proposal <
      ConfidenceScorer.HIGH_CONFIDENCE_THRESHOLD := by
  unfold ConfidenceScorer.current_threshold ConfidenceScorer.HIGH_CONFIDENCE_THRESHOLD
    ConfidenceScorer.LOW_CONFIDENCE_THRESHOLD
  split_ifs <;> norm_num

/-- C3: with the threshold 0.70 when any action is a RuntimeOp and 0.80
otherwise, a final score exactly equal to the threshold routes to
REQUIRE_APPROVAL (not SAFE); a final score equal to 0.99 routes to SAFE
when the signature has history (at least 3 recorded attempts) and to
REQUIRE_APPROVAL when history is None. -/
theorem confidence_boundary_decisions (cache : FeedbackCache)
    (proposal : RemediationProposal) (raw : ℚ) :
    ((ConfidenceScorer.evaluate cache proposal raw).final_score =
        ConfidenceScorer.current_threshold proposal →
      (ConfidenceScorer.evaluate cache proposal raw).decision =
        .REQUIRE_APPROVAL) ∧
    ((ConfidenceScorer.evaluate cache proposal raw).final_score = 0.99 →
      ((FeedbackStore.get_success_rate cache proposal.plan.title = none →
          (ConfidenceScorer.evaluate cache proposal raw).decision =
            .REQUIRE_APPROVAL) ∧
       (FeedbackStore.get_success_rate cache proposal.plan.title ≠ none →
          (ConfidenceScorer.evaluate cache proposal raw).decision = .SAFE))) := by
  obtain ⟨hfs, hdec⟩ := evaluate_characterisation cache proposal raw
  have hthr := current_threshold_lt_high proposal
  constructor
  · intro hb
    rw [hfs] at hb
    rw [hdec, hb]
    have h1 : ¬ ConfidenceScorer.current_threshold proposal <
        ConfidenceScorer.current_threshold proposal := lt_irrefl _
    have h2 : ¬ ConfidenceScorer.current_threshold proposal ≥
        ConfidenceScorer.HIGH_CONFIDENCE_THRESHOLD := not_le.mpr hthr
    rw [if_neg h1, if_neg h2]
  · intro hb
    rw [hfs] at hb
    have hle : ¬ ((0.99 : ℚ) < ConfidenceScorer.current_threshold proposal) := by
      have h := current_threshold_lt_high proposal
      simp only [ConfidenceScorer.HIGH_CONFIDENCE_THRESHOLD] at h
      exact not_lt.mpr (le_of_lt h)
    have hge : (0.99 : ℚ) ≥ ConfidenceScorer.HIGH_CONFIDENCE_THRESHOLD := by
      simp [ConfidenceScorer.HIGH_CONFIDENCE_THRESHOLD]
    constructor
    · intro hnone
      rw [hdec, hb, hnone, if_neg hle, if_pos hge]
    · intro hsome
      cases hh : FeedbackStore.get_success_rate cache proposal.plan.title with
      | none => exact absurd hh hsome
      | some h => rw [hdec, hb, hh, if_neg hle, if_pos hge]

/-- Witness for C3 at concrete inputs: score exactly at the 0.80
threshold routes to REQUIRE_APPROVAL; final score exactly 0.99 routes to
SAFE with history (3 successful attempts) and to REQUIRE_APPROVAL without
history. -/
theorem confidence_boundary_decisions_witness :
    (ConfidenceScorer.evaluate [] propFix 0.80).decision = .REQUIRE_APPROVAL ∧
    (ConfidenceScorer.evaluate [] propFix 0.99).decision = .REQUIRE_APPROVAL ∧
    (ConfidenceScorer.evaluate cacheFix propFix 0.975).decision = .SAFE := by
  refine ⟨?_, ?_, ?_⟩
  · exact (confidence_boundary_decisions [] propFix 0.80).1
      (by norm_num [ConfidenceScorer.evaluate, ConfidenceScorer.current_threshold,
        FeedbackStore.get_success_rate, lookupA, propFix,
        ConfidenceScorer.LOW_CONFIDENCE_THRESHOLD,
        ConfidenceScorer.HIGH_CONFIDENCE_THRESHOLD])
  · exact ((confidence_boundary_decisions [] propFix 0.99).2
      (by norm_num [ConfidenceScorer.evaluate, ConfidenceScorer.current_threshold,
        FeedbackStore.get_success_rate, lookupA, propFix,
        ConfidenceScorer.LOW_CONFIDENCE_THRESHOLD,
        ConfidenceScorer.HIGH_CONFIDENCE_THRESHOLD])).1
      (by norm_num [FeedbackStore.get_success_rate, lookupA, propFix])
  · exact ((confidence_boundary_decisions cacheFix propFix 0.975).2
      (by norm_num [ConfidenceScorer.evaluate, ConfidenceScorer.current_threshold,
        FeedbackStore.get_success_rate, lookupA, propFix, cacheFix, List.find?,
        ConfidenceScorer.LOW_CONFIDENCE_THRESHOLD,
        ConfidenceScorer.HIGH_CONFIDENCE_THRESHOLD])).2
      (by simp [FeedbackStore.get_success_rate, lookupA, propFix, cacheFix,
        List.find?])

/-- C1: evaluation of RemediationAgent.run at a SAFE-routed proposal (all
actions succeed, history of 3/3 attempts) shows the feedback store's
counters for the plan-title signature going from (3, 3) to (5, 5): the
source calls record_feedback twice per SAFE run (agent.py lines 71 and
74, a duplicated block), so totalCount increases by exactly 2 per proposal
run, not 1 as the claim states. -/
theorem agent_run_double_feedback :
    lookupA cacheFix "Fix database pool" = some ⟨3, 3⟩ ∧
    (ConfidenceScorer.evaluate cacheFix propFix propFix.confidence_score).decision =
      .SAFE ∧
    (RemediationAgent.run {} cacheFix {} propFix).toOption.map
      (fun r => lookupA r.2.1 "Fix database pool") = some (some ⟨5, 5⟩) := by
  refine ⟨by decide, ?_, ?_⟩ <;>
    norm_num [RemediationAgent.run, RemediationAgent.execute_actions,
      ConfidenceScorer.evaluate, FeedbackStore.get_success_rate,
      FeedbackStore.record_feedback, lookupA, updateA,
      ConfidenceScorer.current_threshold, ConfidenceScorer.HIGH_CONFIDENCE_THRESHOLD,
      ConfidenceScorer.LOW_CONFIDENCE_THRESHOLD, cacheFix, propFix, List.find?,
      Except.toOption]

/-- C8: when no element with a tag matching parentTag has a direct child
matching childTag with text equal to childValue anywhere in the parsed
document, the structured-markup patcher returns failure and performs no
write: the file system is unchanged. -/
theorem xml_no_match_no_write (fs : FileSystem)
    (path parent_tag child_tag child_value : String) (doc : XmlElem)
    (hdoc : lookupA fs.xml path = some doc)
    (hnone : ∀ e ∈ iterE doc, elemMatches parent_tag child_tag child_value e = false) :
    (XmlPatcher.removeBlockFS fs path parent_tag child_tag child_value).1.success =
      false ∧
    (XmlPatcher.removeBlockFS fs path parent_tag child_tag child_value).2 = fs := by
  have hfind : (iterE doc).find? (elemMatches parent_tag child_tag child_value) = none :=
    List.find?_eq_none.mpr (fun e he => by simp [hnone e he])
  unfold XmlPatcher.removeBlockFS
  rw [hdoc]
  unfold XmlPatcher.removeBlockByChildTag
  dsimp only
  rw [hfind]
  simp

/-- Witness for C8: searching the concrete pom for an absent artifactId
fails and leaves the file system untouched. -/
theorem xml_no_match_no_write_witness :
    (XmlPatcher.removeBlockFS fsPom "pom.xml" "dependency" "artifactId" "absent").1.success =
      false ∧
    (XmlPatcher.removeBlockFS fsPom "pom.xml" "dependency" "artifactId" "absent").2 =
      fsPom :=
  xml_no_match_no_write fsPom "pom.xml" "dependency" "artifactId" "absent" pomDoc
    (by decide) (by decide)

/-- C9: a FILE_EDIT action whose file_path, original_context or
replacement_text is None or empty (Python-falsy; in particular an empty
replacement_text, a pure deletion) is logged as FAILED without the Text
Patcher being invoked — the file system and the external-call trace are
unchanged — the aggregate success flag becomes false, and the executor
continues with the remaining actions. -/
theorem executor_malformed_file_edit (cfg : SafetyConfiguration) (st : ExecState)
    (b : Bool) (action : RemediationAction) (rest : List RemediationAction)
    (gc : Option GitConfig)
    (ht : action.type = .FILE_EDIT)
    (hm : optStrFalsy action.file_path = true ∨
          optStrFalsy action.original_context = true ∨
          optStrFalsy action.replacement_text = true) :
    RemediationAgent.execute_actions cfg st b (action :: rest) gc =
      RemediationAgent.execute_actions cfg
        { st with logs := st.logs ++
            ["Attempting Smart Patch on " ++ showOpt action.file_path ++ "...",
             "FAILED: Malformed FILE_EDIT action. Missing path/context/replacement."] }
        false rest gc := by
  have hcond : (optStrFalsy action.file_path || optStrFalsy action.original_context ||
      optStrFalsy action.replacement_text) = true := by
    rcases hm with h | h | h <;> simp [h]
  simp only [RemediationAgent.execute_actions, ht, hcond]
  simp

/-- Witness for C9: a FILE_EDIT with replacement_text equal to the empty
string fails malformed before the patcher runs, and the following runtime
action is still processed. -/
theorem executor_malformed_file_edit_witness :
    RemediationAgent.execute_actions {} { fs := {} } true
        [actEditEmptyRepl, actRuntime] none =
      .ok (false,
        { fs := {},
          logs := ["Attempting Smart Patch on app.py...",
                   "FAILED: Malformed FILE_EDIT action. Missing path/context/replacement.",
                   "Executing Runtime Operation: kubectl rollout restart deploy/app"],
          calls := [] }) :=
  (executor_malformed_file_edit {} { fs := {} } true actEditEmptyRepl [actRuntime] none
    (by decide) (Or.inr (Or.inr (by decide)))).trans (by decide)

/-- C10: an XML_EDIT action with well-formed path/selector/value whose
selector is neither dependency nor plugin is recorded as failed and skips
validation, but only after remove_dependency has already been invoked
with the given path and value: the call is traced and the file system
carries whatever mutation remove_dependency performed, even though the
action is reported as failed; the executor continues with the remaining
actions. -/
theorem executor_unknown_selector_still_mutates (cfg : SafetyConfiguration)
    (st : ExecState) (b : Bool) (action : RemediationAction)
    (rest : List RemediationAction) (gc : Option GitConfig)
    (ht : action.type = .XML_EDIT)
    (hp : optStrFalsy action.file_path = false)
    (hs : optStrFalsy action.xml_selector = false)
    (hv : optStrFalsy action.xml_value = false)
    (hd : action.xml_selector.getD "" ≠ "dependency")
    (hpl : action.xml_selector.getD "" ≠ "plugin") :
    RemediationAgent.execute_actions cfg st b (action :: rest) gc =
      RemediationAgent.execute_actions cfg
        { fs := (XmlPatcher.remove_dependency st.fs (action.file_path.getD "")
                   (action.xml_value.getD "")).2,
          logs := st.logs ++
            ["Attempting Structured XML Edit on " ++ showOpt action.file_path ++ "...",
             "FAILED: Unknown selector " ++ action.xml_selector.getD ""],
          calls := st.calls ++
            [ExecCall.xmlRemove "dependency" (action.file_path.getD "")
               (action.xml_value.getD "")] }
        false rest gc := by
  have hcond : (optStrFalsy action.file_path || optStrFalsy action.xml_selector ||
      optStrFalsy action.xml_value) = false := by
    simp [hp, hs, hv]
  simp only [RemediationAgent.execute_actions, ht, hcond]
  rw [if_neg hd, if_neg hpl]
  simp

/-- Witness for C10: on the concrete pom file system, the unknown
selector action is reported failed with no validation call, yet the guava
dependency block has been removed from the file. -/
theorem executor_unknown_selector_still_mutates_witness :
    (RemediationAgent.execute_actions {} { fs := fsPom } true [actUnknownSel] none =
      .ok (false,
        { fs := { xml := [("pom.xml", pomDocAfter)] },
          logs := ["Attempting Structured XML Edit on pom.xml...",
                   "FAILED: Unknown selector mystery"],
          calls := [ExecCall.xmlRemove "dependency" "pom.xml" "guava"] })) ∧
    ({ xml := [("pom.xml", pomDocAfter)] } : FileSystem) ≠ fsPom :=
  ⟨(executor_unknown_selector_still_mutates {} { fs := fsPom } true actUnknownSel []
      none (by decide) (by decide) (by decide) (by decide) (by decide)
      (by decide)).trans (by decide),
   by decide⟩

theorem rankedOf_map_pattern (cluster : ErrorCluster) (graph : List String) :
    (ErrorCorrelator.rankedOf cluster graph).map RankedCause.pattern =
      ((List.insertionSort scoredGE (ErrorCorrelator.scoredOf cluster graph)).take 5).map
        (fun x => x.1) := by
  unfold ErrorCorrelator.rankedOf
  rw [List.map_map]
  show ((List.insertionSort scoredGE (ErrorCorrelator.scoredOf cluster graph)).take
      5).enum.map ((fun (x : Scored) => x.1) ∘ Prod.snd) = _
  rw [← List.map_map, List.enum_map_snd]

theorem mem_scoredOf_fst {cluster : ErrorCluster} {graph : List String} {x : Scored}
    (h : x ∈ ErrorCorrelator.scoredOf cluster graph) : x.1 ∈ cluster.patterns := by
  unfold ErrorCorrelator.scoredOf at h
  obtain ⟨a, ha, hfa⟩ := List.mem_filterMap.mp h
  dsimp only at hfa
  split at hfa
  · injection hfa with hx
    subst hx
    exact ha
  · exact Option.noConfusion hfa

theorem mem_top_fst {cluster : ErrorCluster} {graph : List String} {x : Scored}
    (h : x ∈ (List.insertionSort scoredGE (ErrorCorrelator.scoredOf cluster graph)).take 5) :
    x.1 ∈ cluster.patterns :=
  mem_scoredOf_fst
    ((List.perm_insertionSort scoredGE _).mem_iff.mp (List.take_subset _ _ h))

theorem mem_rankedOf_pattern {cluster : ErrorCluster} {graph : List String}
    {p : LogPattern}
    (h : p ∈ (ErrorCorrelator.rankedOf cluster graph).map RankedCause.pattern) :
    p ∈ cluster.patterns := by
  rw [rankedOf_map_pattern] at h
  obtain ⟨x, hx, rfl⟩ := List.mem_map.mp h
  exact mem_top_fst hx

/-- C5 counterexample: a cluster with two distinct pattern objects sharing
the same pattern text (one FATAL-classed and ranked, one benign and
unranked).  The unranked one is excluded from effects because its text
matches a ranked cause's text, so it appears in neither rankedCauses nor
effects: the union does not cover the cluster's patterns. -/
theorem rank_partition_duplicate_text_cex :
    patDupA ≠ patDupB ∧
    patDupA.pattern = patDupB.pattern ∧
    patDupB ∈ (ErrorCorrelator.rank_by_dependency clusterDup []).patterns ∧
    patDupB ∉ (ErrorCorrelator.rank_by_dependency clusterDup []).root_causes.map
      RankedCause.pattern ∧
    patDupB ∉ (ErrorCorrelator.rank_by_dependency clusterDup []).effects := by
  decide

/-- C5 amended: for every cluster (as produced by the Clusterer, with
empty root_causes and effects) whose patterns have pairwise-distinct
pattern texts, the patterns of rankedCauses together with effects
partition the cluster's patterns after ranking: every pattern is in
exactly one side, and the two sides are disjoint.  With duplicate pattern
texts the coverage half can fail, as the counterexample shows. -/
theorem rank_partition_distinct_texts (cluster : ErrorCluster) (graph : List String)
    (hnodup : (cluster.patterns.map LogPattern.pattern).Nodup)
    (hrc : cluster.root_causes = []) (hef : cluster.effects = []) :
    (∀ p, p ∈ (ErrorCorrelator.rank_by_dependency cluster graph).patterns ↔
       (p ∈ (ErrorCorrelator.rank_by_dependency cluster graph).root_causes.map
              RankedCause.pattern ∨
        p ∈ (ErrorCorrelator.rank_by_dependency cluster graph).effects)) ∧
    (∀ p, p ∈ (ErrorCorrelator.rank_by_dependency cluster graph).root_causes.map
            RankedCause.pattern →
       p ∉ (ErrorCorrelator.rank_by_dependency cluster graph).effects) := by
  by_cases hemp : cluster.patterns.isEmpty
  · have h0 : ErrorCorrelator.rank_by_dependency cluster graph = cluster := by
      unfold ErrorCorrelator.rank_by_dependency
      rw [if_pos hemp]
    have hpat : cluster.patterns = [] := by simpa using hemp
    rw [h0, hrc, hef]
    constructor
    · intro p
      simp [hpat]
    · intro p hp
      simp at hp
  · have hrank : ErrorCorrelator.rank_by_dependency cluster graph =
        { cluster with
          root_causes := ErrorCorrelator.rankedOf cluster graph,
          root_cause :=
            match (ErrorCorrelator.rankedOf cluster graph).head? with
            | some rc => some rc.pattern
            | none => cluster.root_cause,
          effects := cluster.patterns.filter (fun p =>
            !(((ErrorCorrelator.rankedOf cluster graph).map
                (fun rc => rc.pattern.pattern)).contains p.pattern)) } := by
      unfold ErrorCorrelator.rank_by_dependency
      rw [if_neg hemp]
    rw [hrank]
    dsimp only
    constructor
    · intro p
      constructor
      · intro hp
        by_cases hct : p.pattern ∈ (ErrorCorrelator.rankedOf cluster graph).map
            (fun rc => rc.pattern.pattern)
        · left
          obtain ⟨rc, hrcm, hrceq⟩ := List.mem_map.mp hct
          have h1 : rc.pattern ∈ (ErrorCorrelator.rankedOf cluster graph).map
              RankedCause.pattern := List.mem_map_of_mem _ hrcm
          have h2 : rc.pattern ∈ cluster.patterns := mem_rankedOf_pattern h1
          have h3 : rc.pattern = p :=
            List.inj_on_of_nodup_map hnodup h2 hp hrceq
          rw [← h3]
          exact h1
        · right
          rw [List.mem_filter]
          refine ⟨hp, ?_⟩
          simp only [Bool.not_eq_true', List.contains, List.elem_eq_mem,
            decide_eq_false_iff_not]
          exact hct
      · intro hp
        rcases hp with hp | hp
        · exact mem_rankedOf_pattern hp
        · exact (List.mem_filter.mp hp).1
    · intro p hp hpe
      have h1 : p.pattern ∈ (ErrorCorrelator.rankedOf cluster graph).map
          (fun rc => rc.pattern.pattern) := by
        obtain ⟨rc, hrcm, rfl⟩ := List.mem_map.mp hp
        exact List.mem_map_of_mem _ hrcm
      have h2 := (List.mem_filter.mp hpe).2
      simp only [Bool.not_eq_true', List.contains, List.elem_eq_mem,
        decide_eq_false_iff_not] at h2
      exact h2 h1

/-- Witness for C5's amended theorem at a concrete distinct-text cluster:
the benign pattern lands in effects (and not among the causes), while the
error pattern, being a ranked cause, is excluded from effects. -/
theorem rank_partition_distinct_texts_witness :
    patInfo ∈ (ErrorCorrelator.rank_by_dependency clusterDistinct []).effects ∧
    patErr ∉ (ErrorCorrelator.rank_by_dependency clusterDistinct []).effects := by
  have h := rank_partition_distinct_texts clusterDistinct [] (by decide) rfl rfl
  refine ⟨?_, ?_⟩
  · rcases (h.1 patInfo).mp (by decide) with h2 | h2
    · exact absurd h2 (by decide)
    · exact h2
  · exact h.2 patErr (by decide)

theorem updateIdx_get?_self {α : Type} (l : List α) (i : Nat) (f : α → α) :
    (updateIdx l i f).get? i = (l.get? i).map f := by
  induction l generalizing i with
  | nil => simp [updateIdx]
  | cons x t ih =>
    cases i with
    | zero => simp [updateIdx]
    | succ n => simpa [updateIdx] using ih n

theorem mem_updateIdx {α : Type} {c : α} {l : List α} {i : Nat} {f : α → α}
    (h : c ∈ updateIdx l i f) :
    c ∈ l ∨ ∃ d, l.get? i = some d ∧ c = f d := by
  induction l generalizing i with
  | nil => simp [updateIdx] at h
  | cons x t ih =>
    cases i with
    | zero =>
      simp only [updateIdx, List.mem_cons] at h
      rcases h with rfl | h
      · exact Or.inr ⟨x, by simp, rfl⟩
      · exact Or.inl (List.mem_cons_of_mem _ h)
    | succ n =>
      simp only [updateIdx, List.mem_cons] at h
      rcases h with rfl | h
      · exact Or.inl (List.mem_cons_self _ _)
      · rcases ih h with h' | ⟨d, hd, rfl⟩
        · exact Or.inl (List.mem_cons_of_mem _ h')
        · exact Or.inr ⟨d, by simpa using hd, rfl⟩

theorem parse_timestamp_nonneg {s : String} {v : ℚ}
    (h : ErrorCorrelator.parse_timestamp s = some v) : 0 ≤ v := by
  unfold ErrorCorrelator.parse_timestamp at h
  split at h
  · exact Option.noConfusion h
  · obtain ⟨f, _, rfl⟩ := Option.map_eq_some'.mp h
    unfold dateValF
    rw [Rat.mkRat_eq_div]
    positivity

theorem sortKey_nonneg (p : LogPattern) : 0 ≤ ErrorCorrelator.sortKey p := by
  unfold ErrorCorrelator.sortKey
  cases h : ErrorCorrelator.parse_timestamp p.firstOccurrence with
  | none => simp [ErrorCorrelator.datetimeMin]
  | some v => simpa using parse_timestamp_nonneg h

/-- The invariant walk: starting from a cluster list in which every
unparsable-timestamp pattern sits alone in its cluster and the current
cluster (if any) holds only parsable-timestamp patterns, clusterStep
preserves the property that every unparsable-timestamp pattern sits alone
in its cluster. -/
theorem clusterStep_unparsable_singleton (w : ℚ) :
    ∀ (ps : List LogPattern) (clusters : List ErrorCluster)
      (cur : Option Nat) (lt : Option ℚ),
      (∀ c ∈ clusters, ∀ p ∈ c.patterns,
         ErrorCorrelator.parse_timestamp p.firstOccurrence = none →
           c.patterns = [p]) →
      (∀ idx, cur = some idx → ∃ c, clusters.get? idx = some c ∧
         ∀ p ∈ c.patterns,
           ErrorCorrelator.parse_timestamp p.firstOccurrence ≠ none) →
      ∀ c ∈ ErrorCorrelator.clusterStep w ps clusters cur lt,
        ∀ p ∈ c.patterns,
          ErrorCorrelator.parse_timestamp p.firstOccurrence = none →
            c.patterns = [p] := by
  intro ps
  induction ps with
  | nil =>
    intro clusters cur lt inv1 _ c hc
    simpa [ErrorCorrelator.clusterStep] using inv1 c (by simpa
      [ErrorCorrelator.clusterStep] using hc)
  | cons p rest ih =>
    intro clusters cur lt inv1 inv2 c hc
    rw [ErrorCorrelator.clusterStep] at hc
    cases hparse : ErrorCorrelator.parse_timestamp p.firstOccurrence with
    | none =>
      rw [hparse] at hc
      dsimp only at hc
      refine ih _ cur lt ?_ ?_ c hc
      · intro c' hc' p' hp' hnone'
        rcases List.mem_append.mp hc' with hmem | hmem
        · exact inv1 c' hmem p' hp' hnone'
        · simp only [List.mem_singleton] at hmem
          subst hmem
          simp only [List.mem_singleton] at hp'
          subst hp'
          rfl
      · intro idx hcur
        obtain ⟨c0, hg0, hall⟩ := inv2 idx hcur
        have hlt : idx < clusters.length := by
          rcases List.get?_eq_some.mp hg0 with ⟨h, _⟩
          exact h
        exact ⟨c0, by rw [List.get?_append hlt]; exact hg0, hall⟩
    | some t =>
      rw [hparse] at hc
      dsimp only at hc
      have hnewInv1 : ∀ c' ∈ clusters ++
          [{ cluster_id := "cluster_" ++ toString clusters.length,
             timestamp := p.firstOccurrence, patterns := [p] : ErrorCluster }],
          ∀ p' ∈ c'.patterns,
            ErrorCorrelator.parse_timestamp p'.firstOccurrence = none →
              c'.patterns = [p'] := by
        intro c' hc' p' hp' hnone'
        rcases List.mem_append.mp hc' with hmem | hmem
        · exact inv1 c' hmem p' hp' hnone'
        · simp only [List.mem_singleton] at hmem
          subst hmem
          simp only [List.mem_singleton] at hp'
          subst hp'
          rfl
      have hnewInv2 : ∀ idx, (some clusters.length : Option Nat) = some idx →
          ∃ c', (clusters ++
            [{ cluster_id := "cluster_" ++ toString clusters.length,
               timestamp := p.firstOccurrence, patterns := [p] : ErrorCluster }]).get?
              idx = some c' ∧
            ∀ p' ∈ c'.patterns,
              ErrorCorrelator.parse_timestamp p'.firstOccurrence ≠ none := by
        intro idx hidx
        injection hidx with hidx
        subst hidx
        refine ⟨_, List.get?_concat_length _ _, ?_⟩
        intro p' hp'
        simp only [List.mem_singleton] at hp'
        subst hp'
        rw [hparse]
        exact Option.noConfusion
      cases cur with
      | none => exact ih _ _ _ hnewInv1 hnewInv2 c hc
      | some idx =>
        cases lt with
        | none => exact ih _ _ _ hnewInv1 hnewInv2 c hc
        | some l =>
          dsimp only at hc
          by_cases hw : t - l ≤ w
          · rw [if_pos hw] at hc
            obtain ⟨c0, hg0, hall⟩ := inv2 idx rfl
            refine ih _ _ _ ?_ ?_ c hc
            · intro c' hc' p' hp' hnone'
              rcases mem_updateIdx hc' with hmem | ⟨d, hd, rfl⟩
              · exact inv1 c' hmem p' hp' hnone'
              · have hd0 : d = c0 := by
                  rw [hg0] at hd
                  injection hd with h
                  exact h.symm
                subst hd0
                dsimp only at hp'
                rcases List.mem_append.mp hp' with h' | h'
                · exact absurd hnone' (hall p' h')
                · simp only [List.mem_singleton] at h'
                  subst h'
                  rw [hparse] at hnone'
                  exact Option.noConfusion hnone'
            · intro idx' hcur'
              injection hcur' with hidx'
              subst hidx'
              refine ⟨{ c0 with patterns := c0.patterns ++ [p] }, ?_, ?_⟩
              · rw [updateIdx_get?_self, hg0]
                rfl
              · intro p' hp'
                dsimp only at hp'
                rcases List.mem_append.mp hp' with h' | h'
                · exact hall p' h'
                · simp only [List.mem_singleton] at h'
                  subst h'
                  rw [hparse]
                  exact Option.noConfusion
          · rw [if_neg hw] at hc
            exact ih _ _ _ hnewInv1 hnewInv2 c hc

/-- C4 counterexample: with one parsable-timestamp pattern and one
unparsable-timestamp pattern, the unparsable pattern is placed FIRST in
the sorted sequence (its sort key is datetime.min, not +infinity), and the
first output cluster is its singleton — refuting "treated as +∞ and placed
last". -/
theorem unparsable_first_cex :
    ErrorCorrelator.parse_timestamp patNoTs.firstOccurrence = none ∧
    (ErrorCorrelator.parse_timestamp patTimed.firstOccurrence).isSome = true ∧
    ErrorCorrelator.sortedPatterns [patTimed, patNoTs] = [patNoTs, patTimed] ∧
    ErrorCorrelator.cluster_by_time [patTimed, patNoTs] 2 =
      [{ cluster_id := "cluster_0", timestamp := "not-a-timestamp",
         patterns := [patNoTs] },
       { cluster_id := "cluster_1", timestamp := "2024-05-01T10:00:00",
         patterns := [patTimed] }] := by
  decide

/-- C4 amended: patterns whose firstSeen timestamp is unparsable are
treated as datetime.min (the MINIMUM, not +∞) and placed first in the
sorted sequence: any pattern preceding an unparsable one in the sort also
has the minimum key.  Each unparsable pattern still becomes its own
singleton cluster, never merged with a timed cluster. -/
theorem unparsable_min_singleton :
    (∀ p : LogPattern,
       ErrorCorrelator.parse_timestamp p.firstOccurrence = none →
         ErrorCorrelator.sortKey p = ErrorCorrelator.datetimeMin) ∧
    (∀ (pats l1 : List LogPattern) (p : LogPattern) (l2 : List LogPattern)
       (q : LogPattern) (l3 : List LogPattern),
       ErrorCorrelator.sortedPatterns pats = l1 ++ p :: (l2 ++ q :: l3) →
       ErrorCorrelator.parse_timestamp q.firstOccurrence = none →
         ErrorCorrelator.sortKey p = ErrorCorrelator.datetimeMin) ∧
    (∀ (pats : List LogPattern) (w : ℚ) (c : ErrorCluster) (p : LogPattern),
       c ∈ ErrorCorrelator.cluster_by_time pats w → p ∈ c.patterns →
       ErrorCorrelator.parse_timestamp p.firstOccurrence = none →
         c.patterns = [p]) := by
  refine ⟨?_, ?_, ?_⟩
  · intro p h
    simp [ErrorCorrelator.sortKey, h]
  · intro pats l1 p l2 q l3 heq hq
    have hsorted : List.Sorted patternLE (ErrorCorrelator.sortedPatterns pats) :=
      List.sorted_insertionSort patternLE pats
    rw [heq] at hsorted
    have h2 : List.Sorted patternLE (p :: (l2 ++ q :: l3)) :=
      hsorted.sublist (List.sublist_append_right l1 _)
    have h3 : patternLE p q := (List.pairwise_cons.mp h2).1 q (by simp)
    have h4 : ErrorCorrelator.sortKey q = ErrorCorrelator.datetimeMin := by
      simp [ErrorCorrelator.sortKey, hq]
    unfold patternLE at h3
    rw [h4] at h3
    exact le_antisymm h3 (sortKey_nonneg p)
  · intro pats w c p hc hp hnone
    unfold ErrorCorrelator.cluster_by_time at hc
    split at hc
    · simp at hc
    · exact clusterStep_unparsable_singleton w _ [] none none
        (by intro c' hc'; simp at hc')
        (by intro idx h; exact Option.noConfusion h) c hc p hp hnone

/-- Witness for C4's amended theorem at concrete inputs: both unparsable
patterns get the minimum key (the second via its position behind another
unparsable pattern in a concrete sort), and the concrete singleton cluster
of the unparsable pattern. -/
theorem unparsable_min_singleton_witness :
    ErrorCorrelator.sortKey patNoTs = ErrorCorrelator.datetimeMin ∧
    ErrorCorrelator.sortKey patNoTs2 = ErrorCorrelator.datetimeMin ∧
    ({ cluster_id := "cluster_0", timestamp := "not-a-timestamp",
       patterns := [patNoTs] } : ErrorCluster).patterns = [patNoTs] :=
  ⟨unparsable_min_singleton.1 patNoTs (by decide),
   unparsable_min_singleton.2.1 [patNoTs2, patNoTs] [] patNoTs2 [] patNoTs []
     (by decide) (by decide),
   unparsable_min_singleton.2.2 [patTimed, patNoTs] 2 _ patNoTs (by decide)
     (by decide) (by decide)⟩

end OpscureML
